import Mathlib

/-!
# Adventure Awaits: booking lifecycle and cancellation fees

A shallow embedding of the booking controllers (`backend/src/controllers/booking.controller.js`
and its nested variant under `ADVENTUREAWAITS/backend`), of the Booking schema
(`backend/src/models/booking.model.js`) and of the cancellation-fee computation of the
Bookings page (`frontend/src/pages/Bookings.jsx`).

Conventions of the embedding:
* a JS `Date` is its time value, an integer number of milliseconds; a missing date field is `none`;
* prices and refunds are JS numbers, embedded as exact rationals;
* the document store is an explicit value threaded through every handler;
* a handler returns the reply it sends together with the store it leaves behind.
-/

set_option autoImplicit false

namespace AdventureAwaits

/-- Identifier of a stored document: a well-formed ObjectId, in its string form. Strings
that cannot be cast to an ObjectId are outside the embedding. -/
abbrev ObjectId := String

/-- An instant: the time value of a JS Date, in milliseconds. -/
abbrev Date := Int

/-- The constant `1000 * 60 * 60 * 24` both cancellation computations divide by. -/
def msPerDay : Int := 1000 * 60 * 60 * 24

/-- The constant `1000 * 60 * 60` of the restaurant branch of the Bookings page. -/
def msPerHour : Int := 1000 * 60 * 60

/-- `Math.floor(ms / d)` for a positive integer divisor. -/
def floorDiv (ms d : Int) : Int := ms / d

/-- `Math.ceil(ms / d)` for a positive integer divisor. -/
def ceilDiv (ms d : Int) : Int := -((-ms) / d)

/-- What a controller hands back: a JSON success body, an `ErrorResponse` passed to `next`,
a `success: false` JSON body (nested variant), or any other error forwarded to `next`. -/
inductive Reply (α : Type) where
  | json (status : Nat) (data : α)
  | errorResponse (message : String) (statusCode : Nat)
  | failure (status : Nat) (message : String)
  | rejected (message : String)
  deriving DecidableEq, Repr

/-- The HTTP status a reply fixes: the one passed to `res.status`, or the `statusCode` of the
`ErrorResponse`. For any other error the status is chosen by the error middleware. -/
def Reply.statusCode {α : Type} (r : Reply α) : Option Nat :=
  match r with
  | .json status _ => some status
  | .errorResponse _ statusCode => some statusCode
  | .failure status _ => some status
  | .rejected _ => none

/-- The authenticated caller, `req.user`. -/
structure Caller where
  id : String
  role : String
  deriving DecidableEq, Repr

namespace Backend

/-- A stored Booking document of `backend/src/models/booking.model.js`. -/
structure Booking where
  id : ObjectId
  user : ObjectId
  type : String
  hotel : Option ObjectId
  checkInDate : Option Date
  checkOutDate : Option Date
  roomType : Option String
  numberOfRooms : Option ℚ
  guestsAdults : Option ℚ
  guestsChildren : ℚ
  restaurant : Option ObjectId
  reservationDate : Option Date
  reservationTime : Option String
  partySize : Option ℚ
  occasion : Option String
  specialRequests : Option String
  attraction : Option ObjectId
  visitDate : Option Date
  ticketType : Option String
  ticketsAdult : ℚ
  ticketsChild : ℚ
  ticketsSenior : ℚ
  guidedTour : Bool
  status : String
  totalPrice : ℚ
  paymentStatus : String
  bookingDate : Date
  cancellationReason : Option String
  cancellationDate : Option Date
  refundAmount : Option ℚ
  notes : Option String
  deriving DecidableEq, Repr

/-- The collections the booking controller touches. Catalog documents are kept by id only:
the controller never reads a field of a hotel, restaurant or attraction. -/
structure Db where
  hotels : List ObjectId
  restaurants : List ObjectId
  attractions : List ObjectId
  bookings : List Booking
  deriving DecidableEq, Repr

/-- A request body, `req.body`, after the schema has cast it: every path of the schema may
be present or absent. The same shape serves `Booking.create` and `findByIdAndUpdate`. -/
structure BookingBody where
  user : Option ObjectId := none
  type : Option String := none
  hotel : Option ObjectId := none
  checkInDate : Option Date := none
  checkOutDate : Option Date := none
  roomType : Option String := none
  numberOfRooms : Option ℚ := none
  guestsAdults : Option ℚ := none
  guestsChildren : Option ℚ := none
  restaurant : Option ObjectId := none
  reservationDate : Option Date := none
  reservationTime : Option String := none
  partySize : Option ℚ := none
  occasion : Option String := none
  specialRequests : Option String := none
  attraction : Option ObjectId := none
  visitDate : Option Date := none
  ticketType : Option String := none
  ticketsAdult : Option ℚ := none
  ticketsChild : Option ℚ := none
  ticketsSenior : Option ℚ := none
  guidedTour : Option Bool := none
  status : Option String := none
  totalPrice : Option ℚ := none
  paymentStatus : Option String := none
  bookingDate : Option Date := none
  cancellationReason : Option String := none
  cancellationDate : Option Date := none
  refundAmount : Option ℚ := none
  notes : Option String := none
  deriving DecidableEq, Repr

/-- `Booking.findById(id)`. -/
def findBooking (db : Db) (id : ObjectId) : Option Booking :=
  db.bookings.find? (fun b => b.id == id)

/-- JS truthiness of an optional string: absent and empty strings are falsy. -/
def truthyStr (s : Option String) : Bool :=
  match s with
  | some v => v != ""
  | none => false

/-- JS truthiness of an optional number: absent and zero are falsy. -/
def truthyNum (q : Option ℚ) : Bool :=
  match q with
  | some v => v != 0
  | none => false

/-- The `pre('save')` hook of the schema: `none` when it calls `next()`, otherwise the
message of the error it raises. -/
def preSave (b : Booking) : Option String :=
  if b.type = "hotel" then
    if !b.hotel.isSome || !b.checkInDate.isSome || !b.checkOutDate.isSome
        || !truthyStr b.roomType then
      some "Hotel bookings require hotel, check-in date, check-out date, and room type"
    else none
  else if b.type = "restaurant" then
    if !b.restaurant.isSome || !b.reservationDate.isSome || !truthyStr b.reservationTime
        || !truthyNum b.partySize then
      some "Restaurant bookings require restaurant, reservation date, time, and party size"
    else none
  else if b.type = "attraction" then
    if !b.attraction.isSome || !b.visitDate.isSome then
      some "Attraction bookings require attraction and visit date"
    else none
  else none

/-- Replace the stored document that has the id of `b` by `b`. -/
def writeBooking (db : Db) (b : Booking) : Db :=
  { db with bookings := db.bookings.map (fun x => if x.id == b.id then b else x) }

/-- The enum and `min` validators of the schema on a whole document: `none` when all of them
pass, otherwise the path that fails. The three required paths are fields of `Booking`. -/
def validateDoc (b : Booking) : Option String :=
  if !(["hotel", "restaurant", "attraction"].contains b.type) then some "type"
  else if b.numberOfRooms.any (fun n => decide (n < 1)) then some "numberOfRooms"
  else if b.guestsAdults.any (fun n => decide (n < 1)) then some "numberOfGuests.adults"
  else if b.partySize.any (fun n => decide (n < 1)) then some "partySize"
  else if !(["confirmed", "pending", "cancelled", "completed"].contains b.status) then
    some "status"
  else if !(["pending", "paid", "refunded", "partial"].contains b.paymentStatus) then
    some "paymentStatus"
  else none

/-- `booking.save()` on a document loaded from the store: validation, the hook, the write. -/
def save (db : Db) (b : Booking) : Except String Db :=
  match validateDoc b with
  | some path => .error ("Validation failed: " ++ path)
  | none =>
    match preSave b with
    | some err => .error err
    | none => .ok (writeBooking db b)

/-- The update validators `runValidators` switches on: the enum and `min` validators, on the
paths a body supplies. `none` when all of them pass, otherwise the path that fails. -/
def validateBody (body : BookingBody) : Option String :=
  if body.type.any (fun t => !(["hotel", "restaurant", "attraction"].contains t)) then
    some "type"
  else if body.numberOfRooms.any (fun n => decide (n < 1)) then some "numberOfRooms"
  else if body.guestsAdults.any (fun n => decide (n < 1)) then some "numberOfGuests.adults"
  else if body.partySize.any (fun n => decide (n < 1)) then some "partySize"
  else if body.status.any
      (fun t => !(["confirmed", "pending", "cancelled", "completed"].contains t)) then
    some "status"
  else if body.paymentStatus.any
      (fun t => !(["pending", "paid", "refunded", "partial"].contains t)) then
    some "paymentStatus"
  else none

/-- The document `Booking.create(body)` builds before validating: the supplied paths, and
the schema defaults for the others. `newId` is the fresh `_id`, `now` is `Date.now`; the three
required paths are passed apart, once known to be present. -/
def newDocument (newId : ObjectId) (now : Date) (user : ObjectId) (type : String)
    (totalPrice : ℚ) (body : BookingBody) : Booking :=
  { id := newId
    user := user
    type := type
    hotel := body.hotel
    checkInDate := body.checkInDate
    checkOutDate := body.checkOutDate
    roomType := body.roomType
    numberOfRooms := body.numberOfRooms
    guestsAdults := body.guestsAdults
    guestsChildren := body.guestsChildren.getD 0
    restaurant := body.restaurant
    reservationDate := body.reservationDate
    reservationTime := body.reservationTime
    partySize := body.partySize
    occasion := body.occasion
    specialRequests := body.specialRequests
    attraction := body.attraction
    visitDate := body.visitDate
    ticketType := body.ticketType
    ticketsAdult := body.ticketsAdult.getD 0
    ticketsChild := body.ticketsChild.getD 0
    ticketsSenior := body.ticketsSenior.getD 0
    guidedTour := body.guidedTour.getD false
    status := body.status.getD "confirmed"
    totalPrice := totalPrice
    paymentStatus := body.paymentStatus.getD "paid"
    bookingDate := body.bookingDate.getD now
    cancellationReason := body.cancellationReason
    cancellationDate := body.cancellationDate
    refundAmount := body.refundAmount
    notes := body.notes }

/-- `Booking.create(body)`: required paths, validators, the `pre('save')` hook, then the
insertion. The result is the stored document and the new store, or the error raised. -/
def create (db : Db) (newId : ObjectId) (now : Date) (body : BookingBody) :
    Except String (Booking × Db) :=
  match body.user, body.type, body.totalPrice with
  | none, _, _ => .error "User ID is required"
  | some _, none, _ => .error "Booking type is required"
  | some _, some _, none => .error "Total price is required"
  | some user, some type, some totalPrice =>
    let doc := newDocument newId now user type totalPrice body
    match validateDoc doc with
    | some path => .error ("Validation failed: " ++ path)
    | none =>
      match preSave doc with
      | some err => .error err
      | none => .ok (doc, { db with bookings := db.bookings ++ [doc] })

/-- The document `findByIdAndUpdate` leaves: every path the body supplies is overwritten. -/
def applyBody (b : Booking) (body : BookingBody) : Booking :=
  { id := b.id
    user := body.user.getD b.user
    type := body.type.getD b.type
    hotel := body.hotel.orElse (fun _ => b.hotel)
    checkInDate := body.checkInDate.orElse (fun _ => b.checkInDate)
    checkOutDate := body.checkOutDate.orElse (fun _ => b.checkOutDate)
    roomType := body.roomType.orElse (fun _ => b.roomType)
    numberOfRooms := body.numberOfRooms.orElse (fun _ => b.numberOfRooms)
    guestsAdults := body.guestsAdults.orElse (fun _ => b.guestsAdults)
    guestsChildren := body.guestsChildren.getD b.guestsChildren
    restaurant := body.restaurant.orElse (fun _ => b.restaurant)
    reservationDate := body.reservationDate.orElse (fun _ => b.reservationDate)
    reservationTime := body.reservationTime.orElse (fun _ => b.reservationTime)
    partySize := body.partySize.orElse (fun _ => b.partySize)
    occasion := body.occasion.orElse (fun _ => b.occasion)
    specialRequests := body.specialRequests.orElse (fun _ => b.specialRequests)
    attraction := body.attraction.orElse (fun _ => b.attraction)
    visitDate := body.visitDate.orElse (fun _ => b.visitDate)
    ticketType := body.ticketType.orElse (fun _ => b.ticketType)
    ticketsAdult := body.ticketsAdult.getD b.ticketsAdult
    ticketsChild := body.ticketsChild.getD b.ticketsChild
    ticketsSenior := body.ticketsSenior.getD b.ticketsSenior
    guidedTour := body.guidedTour.getD b.guidedTour
    status := body.status.getD b.status
    totalPrice := body.totalPrice.getD b.totalPrice
    paymentStatus := body.paymentStatus.getD b.paymentStatus
    bookingDate := body.bookingDate.getD b.bookingDate
    cancellationReason := body.cancellationReason.orElse (fun _ => b.cancellationReason)
    cancellationDate := body.cancellationDate.orElse (fun _ => b.cancellationDate)
    refundAmount := body.refundAmount.orElse (fun _ => b.refundAmount)
    notes := body.notes.orElse (fun _ => b.notes) }

/-- `Booking.findByIdAndUpdate(id, body, { new: true, runValidators: true })` on a document
known to exist: the validators run on the supplied paths, the `pre('save')` hook does not. -/
def findByIdAndUpdate (db : Db) (b : Booking) (body : BookingBody) :
    Except String (Booking × Db) :=
  match validateBody body with
  | some path => .error ("Validation failed: " ++ path)
  | none => .ok (applyBody b body, writeBooking db (applyBody b body))

/-- The owner-or-admin test shared by getBooking, updateBooking and cancelBooking:
`booking.user.toString() !== req.user.id && req.user.role !== 'admin'`. -/
def notAuthorized (b : Booking) (caller : Caller) : Bool :=
  b.user != caller.id && caller.role != "admin"

/-- The day count of cancelBooking (lines 266-276). -/
def daysUntilBooking (b : Booking) (now : Date) : Int :=
  match (if b.type = "hotel" then b.checkInDate else none) with
  | some d => floorDiv (d - now) msPerDay
  | none =>
    match (if b.type = "restaurant" then b.reservationDate else none) with
    | some d => floorDiv (d - now) msPerDay
    | none =>
      match (if b.type = "attraction" then b.visitDate else none) with
      | some d => floorDiv (d - now) msPerDay
      | none => 0

/-- The refund tiers of cancelBooking (lines 279-291). -/
def refundTier (totalPrice : ℚ) (daysUntil : Int) : ℚ :=
  if daysUntil > 7 then totalPrice
  else if daysUntil > 3 then totalPrice * 0.75
  else if daysUntil > 1 then totalPrice * 0.5
  else totalPrice * 0.25

/-- `reason || 'No reason provided'`. -/
def reasonOrDefault (reason : Option String) : String :=
  match reason with
  | some r => if r = "" then "No reason provided" else r
  | none => "No reason provided"

/-- The four assignments of cancelBooking under `// Update booking` (lines 294-297). -/
def markCancelled (booking : Booking) (reason : Option String) (now : Date)
    (refundAmount : ℚ) : Booking :=
  { booking with
    status := "cancelled"
    cancellationReason := some (reasonOrDefault reason)
    cancellationDate := some now
    refundAmount := some refundAmount }

/-- Handler cancelBooking of the main controller. `id` is `req.params.id`, `reason` is
`req.body.reason`, `now` the value of `new Date()` during the call. -/
def cancelBooking (db : Db) (now : Date) (caller : Caller) (id : ObjectId)
    (reason : Option String) : Reply Booking × Db :=
  match findBooking db id with
  | none => (.errorResponse ("No booking found with id " ++ id) 404, db)
  | some booking =>
    if notAuthorized booking caller then
      (.errorResponse "Not authorized to cancel this booking" 401, db)
    else if booking.status = "cancelled" then
      (.errorResponse "Booking is already cancelled" 400, db)
    else if booking.status = "completed" then
      (.errorResponse "Cannot cancel a completed booking" 400, db)
    else
      let refundAmount := refundTier booking.totalPrice (daysUntilBooking booking now)
      let updated := markCancelled booking reason now refundAmount
      match save db updated with
      | .error err => (.rejected err, db)
      | .ok db' => (.json 200 updated, db')

/-- `itemModel.findById(itemId)` of createBooking: does the catalog of the type named hold
the id the body names? An absent id matches nothing. -/
def itemExists (ids : List ObjectId) (itemId : Option ObjectId) : Bool :=
  match itemId with
  | some i => ids.contains i
  | none => false

/-- Render `itemId` inside the not-found message, as the template string does. -/
def showItemId (itemId : Option ObjectId) : String :=
  itemId.getD "undefined"

/-- Handler createBooking of the main controller. -/
def createBooking (db : Db) (newId : ObjectId) (now : Date) (caller : Caller)
    (reqBody : BookingBody) : Reply Booking × Db :=
  let body : BookingBody := { reqBody with user := some caller.id }
  let lookup : Option (String × List ObjectId × Option ObjectId) :=
    if body.type = some "hotel" then some ("hotel", db.hotels, body.hotel)
    else if body.type = some "restaurant" then some ("restaurant", db.restaurants, body.restaurant)
    else if body.type = some "attraction" then some ("attraction", db.attractions, body.attraction)
    else none
  match lookup with
  | none => (.errorResponse "Invalid booking type" 400, db)
  | some (type, ids, itemId) =>
    if !itemExists ids itemId then
      (.errorResponse ("No " ++ type ++ " found with id " ++ showItemId itemId) 404, db)
    else
      match create db newId now body with
      | .error err => (.rejected err, db)
      | .ok (booking, db') => (.json 201 booking, db')

/-- Handler getBooking of the main controller (the populated catalog fields are left out of
the returned document). -/
def getBooking (db : Db) (caller : Caller) (id : ObjectId) : Reply Booking × Db :=
  match findBooking db id with
  | none => (.errorResponse ("No booking found with id " ++ id) 404, db)
  | some booking =>
    if notAuthorized booking caller then
      (.errorResponse "Not authorized to access this booking" 401, db)
    else (.json 200 booking, db)

/-- Handler updateBooking of the main controller. -/
def updateBooking (db : Db) (caller : Caller) (id : ObjectId) (body : BookingBody) :
    Reply Booking × Db :=
  match findBooking db id with
  | none => (.errorResponse ("No booking found with id " ++ id) 404, db)
  | some booking =>
    if notAuthorized booking caller then
      (.errorResponse "Not authorized to update this booking" 401, db)
    else if booking.status = "cancelled" ∨ booking.status = "completed" then
      (.errorResponse "Cannot update a booking that is cancelled or completed" 400, db)
    else
      match findByIdAndUpdate db booking body with
      | .error err => (.rejected err, db)
      | .ok (updated, db') => (.json 200 updated, db')

/-- Schema method `cancel` of the model (lines 115-124): it sets the status, the reason and
the date, computes no refund, and saves. No handler of the controller calls it. -/
def cancel (db : Db) (now : Date) (b : Booking) (reason : Option String) : Except String Db :=
  save db { b with
    status := "cancelled"
    cancellationReason := reason
    cancellationDate := some now }

/-- Schema method `complete` of the model (lines 126-129). No handler of the controller
calls it. -/
def complete (db : Db) (b : Booking) : Except String Db :=
  save db { b with status := "completed" }

/-- `booking.remove()`: the stored document with the id of `b` leaves the collection. -/
def removeBooking (db : Db) (b : Booking) : Db :=
  { db with bookings := db.bookings.filter (fun x => x.id != b.id) }

/-- Handler deleteBooking of the main controller; the data of its 200 reply is `{}`. -/
def deleteBooking (db : Db) (caller : Caller) (id : ObjectId) : Reply Unit × Db :=
  match findBooking db id with
  | none => (.errorResponse ("No booking found with id " ++ id) 404, db)
  | some booking =>
    if caller.role != "admin" then
      (.errorResponse "Not authorized to delete bookings" 401, db)
    else (.json 200 (), removeBooking db booking)

end Backend

namespace Nested

/-- A stored Booking document of the nested variant,
`ADVENTUREAWAITS/backend/src/models/booking.model.js`. -/
structure Booking where
  id : ObjectId
  user : ObjectId
  bookingType : String
  itemId : String
  stateId : String
  name : String
  image : Option String
  startDate : Date
  endDate : Option Date
  roomType : Option String
  rooms : Option ℚ
  guests : Option ℚ
  time : Option String
  people : Option ℚ
  occasion : String
  specialRequests : Option String
  ticketType : Option String
  adultTickets : ℚ
  childTickets : ℚ
  seniorTickets : ℚ
  totalTickets : Option ℚ
  guidedTour : Bool
  totalPrice : ℚ
  status : String
  paymentStatus : String
  notes : Option String
  createdAt : Date
  updatedAt : Date
  deriving DecidableEq, Repr

/-- The bookings collection of the nested variant. -/
structure Db where
  bookings : List Booking
  deriving DecidableEq, Repr

/-- `Booking.findById(id)`. -/
def findBooking (db : Db) (id : ObjectId) : Option Booking :=
  db.bookings.find? (fun b => b.id == id)

/-- A required string path holds a value: present and not empty. -/
def present (s : Option String) : Bool :=
  match s with
  | some v => v != ""
  | none => false

/-- The validators of the nested schema on a whole document: `none` when all of them pass,
otherwise the path that fails. The required paths user, startDate and totalPrice are fields
of `Booking`. -/
def validateDoc (b : Booking) : Option String :=
  if !(["hotel", "restaurant", "attraction"].contains b.bookingType) then some "bookingType"
  else if b.itemId = "" then some "itemId"
  else if b.stateId = "" then some "stateId"
  else if b.name = "" then some "name"
  else if b.bookingType = "hotel" ∧ !present b.roomType then some "roomType"
  else if b.roomType.any (fun t => !(["standard", "deluxe", "suite"].contains t)) then
    some "roomType"
  else if b.bookingType = "hotel" ∧ b.rooms = none then some "rooms"
  else if b.rooms.any (fun n => decide (n < 1)) then some "rooms"
  else if b.bookingType = "hotel" ∧ b.guests = none then some "guests"
  else if b.guests.any (fun n => decide (n < 1)) then some "guests"
  else if b.bookingType = "restaurant" ∧ !present b.time then some "time"
  else if b.bookingType = "restaurant" ∧ b.people = none then some "people"
  else if b.people.any (fun n => decide (n < 1)) then some "people"
  else if !(["none", "birthday", "anniversary", "business", "other"].contains b.occasion) then
    some "occasion"
  else if b.specialRequests.any (fun t => decide (500 < t.length)) then some "specialRequests"
  else if b.bookingType = "attraction" ∧ !present b.ticketType then some "ticketType"
  else if b.ticketType.any (fun t => !(["standard", "premium", "vip"].contains t)) then
    some "ticketType"
  else if b.adultTickets < 0 then some "adultTickets"
  else if b.childTickets < 0 then some "childTickets"
  else if b.seniorTickets < 0 then some "seniorTickets"
  else if b.bookingType = "attraction" ∧ b.adultTickets + b.childTickets + b.seniorTickets = 0
      ∧ b.totalTickets = none then some "totalTickets"
  else if b.totalTickets.any (fun n => decide (n < 1)) then some "totalTickets"
  else if !(["confirmed", "pending", "cancelled", "completed"].contains b.status) then
    some "status"
  else if !(["paid", "pending", "refunded"].contains b.paymentStatus) then some "paymentStatus"
  else if b.notes.any (fun t => decide (500 < t.length)) then some "notes"
  else none

/-- `booking.save()` on a document loaded from the store: validation, then the write, which
also stamps `updatedAt` (the schema has `timestamps: true`). -/
def save (db : Db) (now : Date) (b : Booking) : Except String (Booking × Db) :=
  match validateDoc b with
  | some path => .error ("Validation failed: " ++ path)
  | none =>
    let stamped : Booking := { b with updatedAt := now }
    .ok (stamped,
      { db with bookings := db.bookings.map (fun x => if x.id == b.id then stamped else x) })

/-- The owner-or-admin test of the nested controller. -/
def notAuthorized (b : Booking) (caller : Caller) : Bool :=
  b.user != caller.id && caller.role != "admin"

/-- Handler cancelBooking of the nested controller. An error raised inside the `try` block
reaches `next` through the `catch`. -/
def cancelBooking (db : Db) (now : Date) (caller : Caller) (id : ObjectId) :
    Reply Booking × Db :=
  match findBooking db id with
  | none => (.failure 404 "Booking not found", db)
  | some booking =>
    if notAuthorized booking caller then
      (.failure 401 "Not authorized to cancel this booking", db)
    else if booking.status = "cancelled" then
      (.failure 400 "Booking is already cancelled", db)
    else
      let updated : Booking :=
        { booking with status := "cancelled", paymentStatus := "refunded" }
      match save db now updated with
      | .error err => (.rejected err, db)
      | .ok (saved, db') => (.json 200 saved, db')

/-- `booking.deleteOne()`: the stored document with the id of `b` leaves the collection. -/
def removeBooking (db : Db) (b : Booking) : Db :=
  { db with bookings := db.bookings.filter (fun x => x.id != b.id) }

/-- Handler deleteBooking of the nested controller; the data of its 200 reply is `{}`. -/
def deleteBooking (db : Db) (caller : Caller) (id : ObjectId) : Reply Unit × Db :=
  match findBooking db id with
  | none => (.failure 404 "Booking not found", db)
  | some booking =>
    if notAuthorized booking caller then
      (.failure 401 "Not authorized to delete this booking", db)
    else (.json 200 (), removeBooking db booking)

end Nested

namespace Frontend

/-- A date-valued field of a booking kept in localStorage: missing (or empty, both falsy), a
string `new Date` cannot read, or a string `new Date` reads as the instant `t`. -/
inductive DateField where
  | absent
  | unparsable
  | valid (t : Date)
  deriving DecidableEq, Repr

/-- `new Date(field)`: the time value, `none` standing for the NaN of an Invalid Date. -/
def DateField.toDate (f : DateField) : Option Date :=
  match f with
  | .valid t => some t
  | _ => none

/-- `a || b` on two date fields. -/
def DateField.orElse (a b : DateField) : DateField :=
  match a with
  | .absent => b
  | _ => a

/-- A booking as the Bookings page reads it from localStorage. Numeric fields are JSON
numbers, so never NaN or infinite; a missing field is `none`. -/
structure Booking where
  type : String
  totalPrice : Option ℚ := none
  checkIn : DateField := .absent
  checkOut : DateField := .absent
  date : DateField := .absent
  roomType : Option String := none
  rooms : Option ℚ := none
  people : Option ℚ := none
  adultTickets : Option ℚ := none
  childTickets : Option ℚ := none
  seniorTickets : Option ℚ := none
  totalTickets : Option ℚ := none
  tickets : Option ℚ := none
  ticketType : Option String := none
  deriving DecidableEq, Repr

/-- `x || d` on an optional number: absent and zero are falsy. -/
def numOr (x : Option ℚ) (d : ℚ) : ℚ :=
  match x with
  | some v => if v = 0 then d else v
  | none => d

/-- `Math.ceil((a - b) / unit)` on two dates; `none` is NaN. -/
def ceilDiff (a b : Option Date) (unit : Int) : Option Int :=
  match a, b with
  | some x, some y => some (ceilDiv (x - y) unit)
  | _, _ => none

/-- `x <= k` on a possibly-NaN integer: false on NaN. -/
def jsLe (x : Option Int) (k : Int) : Bool :=
  match x with
  | some v => decide (v ≤ k)
  | none => false

/-- `x > k` on a possibly-NaN integer: false on NaN. -/
def jsGt (x : Option Int) (k : Int) : Bool :=
  match x with
  | some v => decide (v > k)
  | none => false

/-- The multiplier both attraction branches apply (lines 101-103 and 111-113). -/
def ticketMultiplier (ticketType : Option String) : ℚ :=
  if ticketType = some "vip" then 2.5
  else if ticketType = some "premium" then 1.5
  else 1

/-- The nights of the hotel fallback (lines 66-68): check-out defaults to the day after
check-in (one day being 24 hours), and a NaN or zero count becomes 1. -/
def fallbackNights (b : Booking) : ℚ :=
  let checkInDate := (b.checkIn.orElse b.date).toDate
  let checkOutDate :=
    match b.checkOut with
    | .absent => checkInDate.map (fun t => t + msPerDay)
    | f => f.toDate
  match ceilDiff checkOutDate checkInDate msPerDay with
  | some n => if n = 0 then 1 else (n : ℚ)
  | none => 1

/-- The price on which the fee is computed (lines 59-119). A numeric totalPrice that
`toString` prints in plain decimal notation is read back unchanged by `parseFloat`, the
regular expression removing nothing from it. -/
def rawPrice (b : Booking) : ℚ :=
  match (if b.totalPrice = some 0 then none else b.totalPrice) with
  | some p => p
  | none =>
    if b.type = "hotel" then
      let basePrice : ℚ :=
        if b.roomType = some "suite" then 7500
        else if b.roomType = some "deluxe" then 4500
        else 3000
      basePrice * fallbackNights b * numOr b.rooms 1
    else if b.type = "restaurant" then
      1200 * numOr b.people 1
    else if b.type = "attraction" then
      let adultTickets := numOr b.adultTickets 0
      let childTickets := numOr b.childTickets 0
      let seniorTickets := numOr b.seniorTickets 0
      if adultTickets > 0 ∨ childTickets > 0 ∨ seniorTickets > 0 then
        (500 * adultTickets + 250 * childTickets + 350 * seniorTickets)
          * ticketMultiplier b.ticketType
      else
        500 * numOr b.totalTickets (numOr b.tickets 1) * ticketMultiplier b.ticketType
    else 0

/-- The object calculateCancellationFee returns. -/
structure Fee where
  percentage : ℚ
  amount : ℚ
  deriving DecidableEq, Repr

/-- Function calculateCancellationFee of Bookings.jsx; `today` is the value of `new Date()`. -/
def calculateCancellationFee (today : Date) (b : Booking) : Fee :=
  let rawPrice := rawPrice b
  if b.type = "hotel" then
    let daysDifference := ceilDiff b.checkIn.toDate (some today) msPerDay
    if jsLe daysDifference 1 then { percentage := 100, amount := rawPrice }
    else if jsLe daysDifference 3 then { percentage := 75, amount := rawPrice * 0.75 }
    else if jsLe daysDifference 7 then { percentage := 50, amount := rawPrice * 0.5 }
    else { percentage := 10, amount := rawPrice * 0.1 }
  else if b.type = "restaurant" then
    let hoursDifference := ceilDiff b.date.toDate (some today) msPerHour
    if jsGt hoursDifference 24 then { percentage := 0, amount := 0 }
    else { percentage := 20, amount := rawPrice * 0.2 }
  else if b.type = "attraction" then
    let daysDifference := ceilDiff b.date.toDate (some today) msPerDay
    if jsLe daysDifference 1 then { percentage := 75, amount := rawPrice * 0.75 }
    else if jsLe daysDifference 3 then { percentage := 50, amount := rawPrice * 0.5 }
    else { percentage := 20, amount := rawPrice * 0.2 }
  else { percentage := 0, amount := 0 }

/-- A JS number that may fail to be finite: the result of a division. -/
inductive JsNum where
  | num (q : ℚ)
  | posInf
  | negInf
  | nan
  deriving DecidableEq, Repr

/-- JS `a / b` on finite numbers (the sign of a zero divisor is taken positive). -/
def jsDiv (a b : ℚ) : JsNum :=
  if b ≠ 0 then .num (a / b)
  else if a > 0 then .posInf
  else if a < 0 then .negInf
  else .nan

/-- JS `x - y` with `y` finite. -/
def jsSub (x : JsNum) (y : ℚ) : JsNum :=
  match x with
  | .num q => .num (q - y)
  | other => other

/-- The three amounts the cancellation modal shows. -/
structure Breakdown where
  originalAmount : JsNum
  fee : ℚ
  refundAmount : JsNum
  deriving DecidableEq, Repr

/-- The computation of the cancellation-breakdown block of the modal (lines 659-662). -/
def cancellationBreakdown (today : Date) (b : Booking) : Breakdown :=
  let fee := calculateCancellationFee today b
  let originalAmount := jsDiv fee.amount (fee.percentage / 100)
  let refundAmount := jsSub originalAmount fee.amount
  { originalAmount := originalAmount, fee := fee.amount, refundAmount := refundAmount }

end Frontend

namespace Backend

/-- The `favorites` path of a User document (`backend/src/models/user.model.js`): three
arrays of ObjectIds. -/
structure Favorites where
  hotels : List ObjectId
  restaurants : List ObjectId
  attractions : List ObjectId
  deriving DecidableEq, Repr

/-- The array `this.favorites[type]` for one of the three category names. -/
def Favorites.get (f : Favorites) (type : String) : Option (List ObjectId) :=
  if type = "hotels" then some f.hotels
  else if type = "restaurants" then some f.restaurants
  else if type = "attractions" then some f.attractions
  else none

/-- The favorites after `this.favorites[type].push(itemId)`. -/
def Favorites.push (f : Favorites) (type : String) (itemId : ObjectId) : Favorites :=
  if type = "hotels" then { f with hotels := f.hotels ++ [itemId] }
  else if type = "restaurants" then { f with restaurants := f.restaurants ++ [itemId] }
  else if type = "attractions" then { f with attractions := f.attractions ++ [itemId] }
  else f

/-- Is the character a hexadecimal digit? -/
def isHexDigit (c : Char) : Bool := "0123456789abcdefABCDEF".data.contains c

/-- The lower-case form of a hexadecimal digit. -/
def lowerHex (c : Char) : Char :=
  if c = 'A' then 'a' else if c = 'B' then 'b' else if c = 'C' then 'c'
  else if c = 'D' then 'd' else if c = 'E' then 'e' else if c = 'F' then 'f' else c

/-- The cast of a string to an ObjectId, as the `push` of a Mongoose array of ObjectIds
applies it to a string of 24 hexadecimal digits: the id those digits spell, given in its
string form, which is lower-case. `none` stands for the CastError of any other string. -/
def castObjectId (raw : String) : Option ObjectId :=
  if raw.data.length = 24 ∧ raw.data.all isHexDigit = true then
    some (String.mk (raw.data.map lowerHex))
  else none

/-- Schema method addFavorite (lines 99-111): the favorites it returns, or the error it
throws. `itemId` is the string the caller passes, the `:id` of the URL as the favorites
controller hands it over. The `includes` of a Mongoose array compares that string with the
string form of each stored id; `push` casts it to an ObjectId; `this.save()` persists the
document. -/
def addFavorite (f : Favorites) (type : String) (itemId : String) : Except String Favorites :=
  if !(["hotels", "restaurants", "attractions"].contains type) then
    .error "Invalid favorite type"
  else
    match f.get type with
    | some ids =>
      if !(ids.contains itemId) then
        match castObjectId itemId with
        | some oid => .ok (f.push type oid)
        | none => .error "Cast to ObjectId failed"
      else .ok f
    | none => .ok f

/-- Modelled from the spec: the middleware `authorize` of `middleware/auth`, which the
routes import and which is not among the sources. By section 6 of the specification a
DELETE on a booking is answered 401 unless the caller is an admin, and by section 4.2 any
caller other than an admin receives Unauthorized: a caller whose role is among `roles`
passes (`none`), every other caller is answered with status 401. -/
def authorize (roles : List String) (caller : Caller) : Option (Reply Unit) :=
  if roles.contains caller.role then none
  else some (.errorResponse "Unauthorized" 401)

/-- The route `DELETE /:id` of booking.routes.js (line 33): `authorize('admin')`, then the
handler deleteBooking. -/
def deleteRoute (db : Db) (caller : Caller) (id : ObjectId) : Reply Unit × Db :=
  match authorize ["admin"] caller with
  | some reply => (reply, db)
  | none => deleteBooking db caller id

end Backend

namespace Frontend

/-- `Math.round` on a finite number: the floor of the number plus one half. -/
def jsRound (q : ℚ) : ℚ := ((⌊q + 1 / 2⌋ : Int) : ℚ)

/-- `parseInt` on a finite number printed in plain decimal notation: the integer part,
the fraction dropped toward zero. -/
def jsParseInt (q : ℚ) : ℚ := if 0 ≤ q then ((⌊q⌋ : Int) : ℚ) else ((⌈q⌉ : Int) : ℚ)

/-- The price getFormattedPrice (lines 225-293) formats, before the currency formatting.
No statement of its `try` block throws on a booking of this shape, so the `catch` branch
is never taken. -/
def getFormattedPrice (b : Booking) : ℚ :=
  let price : ℚ :=
    match (if b.totalPrice = some 0 then none else b.totalPrice) with
    | some p => p
    | none =>
      if b.type = "hotel" then
        let basePrice : ℚ :=
          if b.roomType = some "suite" then 7500
          else if b.roomType = some "deluxe" then 4500
          else 3000
        basePrice * fallbackNights b * numOr b.rooms 1
      else if b.type = "restaurant" then
        1200 * numOr b.people 1
      else if b.type = "attraction" then
        let adultTickets := jsParseInt (numOr b.adultTickets 0)
        let childTickets := jsParseInt (numOr b.childTickets 0)
        let seniorTickets := jsParseInt (numOr b.seniorTickets 0)
        let price : ℚ :=
          if adultTickets > 0 ∨ childTickets > 0 ∨ seniorTickets > 0 then
            500 * (adultTickets + childTickets + seniorTickets)
          else
            500 * jsParseInt (numOr b.totalTickets (numOr b.tickets 1))
        if b.ticketType = some "premium" then jsRound (price * 1.5)
        else if b.ticketType = some "vip" then jsRound (price * 2.5)
        else price
      else 0
  jsRound price

/-- The local calendar day of an instant, as a day number: `tz` is the offset of the local
zone in milliseconds, taken constant. Two date-only Dates built from year, month and day
compare as their day numbers do. -/
def localDay (tz : Int) (t : Date) : Int := floorDiv (t + tz) msPerDay

/-- The callback of `bookings.filter` (lines 23-42): is the booking listed under the tab
`activeTab`? `today` is the value of `new Date()`. An Invalid Date makes both comparisons
false and throws nothing, so the `catch` branch is never taken. -/
def inTab (tz : Int) (today : Date) (activeTab : String) (b : Booking) : Bool :=
  let bookingDate : Option Date :=
    match b.date.orElse b.checkIn with
    | .absent => some today
    | f => f.toDate
  match bookingDate with
  | some t =>
    if activeTab = "upcoming" then decide (localDay tz t ≥ localDay tz today)
    else decide (localDay tz t < localDay tz today)
  | none => false

/-- The policy the cancellation modal lists for the type of the booking (lines 629-653),
read as thresholds on the milliseconds left until the event: the percentage of the first
line whose period holds the time left. -/
def displayedPolicy (type : String) (msLeft : Int) : ℚ :=
  if type = "hotel" then
    if msLeft ≤ 24 * msPerHour then 100
    else if msLeft ≤ 3 * msPerDay then 50
    else if msLeft ≤ 7 * msPerDay then 25
    else 10
  else if type = "restaurant" then
    if msLeft ≤ 24 * msPerHour then 100 else 20
  else if type = "attraction" then
    if msLeft ≤ 48 * msPerHour then 75
    else if msLeft ≤ 5 * msPerDay then 50
    else 20
  else 0

/-- The hotel listing HotelBooking.jsx books against: `priceMatch` is the number the first
rupee amount of `hotel.priceRange` reads as, `none` when the string holds none. -/
structure HotelListing where
  priceMatch : Option Nat
  deriving DecidableEq, Repr

/-- The fields of `formData` that handleSubmit reads. The form lets a submission through
only with both dates filled in and a whole number of rooms from 1 to 5. -/
structure HotelForm where
  checkIn : Date
  checkOut : Date
  rooms : Nat
  roomType : String
  deriving DecidableEq, Repr

/-- The `totalPrice` handleSubmit of HotelBooking.jsx computes (lines 73-88). -/
def handleSubmitTotalPrice (hotel : HotelListing) (formData : HotelForm) : ℚ :=
  let nights := ceilDiv (formData.checkOut - formData.checkIn) msPerDay
  let basePrice : ℚ :=
    match hotel.priceMatch with
    | some n => (n : ℚ)
    | none => 3000
  let roomTypeMultiplier : ℚ :=
    if formData.roomType = "standard" then 1
    else if formData.roomType = "deluxe" then 1.5
    else if formData.roomType = "suite" then 2.5
    else 1
  basePrice * formData.rooms * nights * roomTypeMultiplier

end Frontend

/-! ## Sample data -/

namespace Backend

/-- An ordinary caller, owner of the sample bookings. -/
def owner : Caller := { id := "u1", role := "user" }

/-- A catalog with one hotel, one restaurant and one attraction, and no booking yet. -/
def emptyDb : Db :=
  { hotels := ["h1"], restaurants := ["r1"], attractions := ["a1"], bookings := [] }

/-- The instant `n` whole days after instant 0. -/
def atDay (n : Int) : Date := n * msPerDay

/-- A hotel booking of 9000 whose check-in is at day 10 and check-out at day 11. -/
def sampleHotel : Booking :=
  { id := "b1", user := "u1", type := "hotel", hotel := some "h1",
    checkInDate := some (atDay 10), checkOutDate := some (atDay 11), roomType := some "deluxe",
    numberOfRooms := some 1, guestsAdults := some 2, guestsChildren := 0,
    restaurant := none, reservationDate := none, reservationTime := none, partySize := none,
    occasion := none, specialRequests := none, attraction := none, visitDate := none,
    ticketType := none, ticketsAdult := 0, ticketsChild := 0, ticketsSenior := 0,
    guidedTour := false, status := "confirmed", totalPrice := 9000, paymentStatus := "paid",
    bookingDate := 0, cancellationReason := none, cancellationDate := none,
    refundAmount := none, notes := none }

/-- The store holding `sampleHotel` only. -/
def sampleDb : Db := { emptyDb with bookings := [sampleHotel] }

/-- The request body of a hotel booking whose client names a total price of -100. -/
def negPriceBody : BookingBody :=
  { type := some "hotel", hotel := some "h1", checkInDate := some (atDay 10),
    checkOutDate := some (atDay 11), roomType := some "deluxe", totalPrice := some (-100) }

/-- The document createBooking stores for `negPriceBody`. -/
def negPriceBooking : Booking :=
  { sampleHotel with numberOfRooms := none, guestsAdults := none, totalPrice := -100 }

end Backend

namespace Backend

/-- A caller with the admin role who owns no sample booking. -/
def admin : Caller := { id := "u0", role := "admin" }

/-- An ordinary caller who owns no sample booking. -/
def stranger : Caller := { id := "u2", role := "user" }

/-- The booking `sampleHotel` after a cancellation at day 5 that refunded 6750. -/
def cancelledHotel : Booking :=
  markCancelled sampleHotel (some "change of plans") (atDay 5) 6750

/-- The booking `sampleHotel` once completed. -/
def completedHotel : Booking := { sampleHotel with status := "completed" }

/-- A request body for a hotel the catalog of `emptyDb` does not hold. -/
def unknownHotelBody : BookingBody :=
  { type := some "hotel", hotel := some "h9", checkInDate := some (atDay 10),
    checkOutDate := some (atDay 11), roomType := some "deluxe", totalPrice := some 9000 }

end Backend

namespace Nested

/-- A hotel booking of the nested variant, already cancelled and refunded. -/
def cancelledHotel : Booking :=
  { id := "b1", user := "u1", bookingType := "hotel", itemId := "7", stateId := "goa",
    name := "Sea View", image := none, startDate := 864000000, endDate := some 950400000,
    roomType := some "deluxe", rooms := some 1, guests := some 2, time := none, people := none,
    occasion := "none", specialRequests := none, ticketType := some "standard",
    adultTickets := 0, childTickets := 0, seniorTickets := 0, totalTickets := none,
    guidedTour := false, totalPrice := 9000, status := "cancelled",
    paymentStatus := "refunded", notes := none, createdAt := 0, updatedAt := 432000000 }

end Nested

namespace Backend

/-- A request body that only adds a note. -/
def noteBody : BookingBody := { notes := some "late arrival" }

/-- A request body that names the status completed. -/
def completeBody : BookingBody := { status := some "completed" }

/-- A request body that names another owner and another total price. -/
def takeoverBody : BookingBody := { user := some "u2", totalPrice := some 1 }

/-- The booking `sampleHotel` after `takeoverBody` has been applied. -/
def takenOverHotel : Booking := { sampleHotel with user := "u2", totalPrice := 1 }

end Backend

namespace Backend

/-- A hotel request that names another owner, the status cancelled and a refund of 9000. -/
def presetBody : BookingBody :=
  { user := some "u2", type := some "hotel", hotel := some "h1",
    checkInDate := some (atDay 10), checkOutDate := some (atDay 11),
    roomType := some "deluxe", totalPrice := some 9000, status := some "cancelled",
    cancellationReason := some "preset", refundAmount := some 9000 }

/-- The document createBooking stores for `presetBody` sent by `owner`. -/
def presetBooking : Booking :=
  { sampleHotel with
    numberOfRooms := none, guestsAdults := none, status := "cancelled",
    cancellationReason := some "preset", refundAmount := some 9000 }

/-- A hotel request whose check-out (day 9) is before its check-in (day 10). -/
def reversedStayBody : BookingBody :=
  { type := some "hotel", hotel := some "h1", checkInDate := some (atDay 10),
    checkOutDate := some (atDay 9), roomType := some "deluxe", totalPrice := some 9000 }

/-- The document createBooking stores for `reversedStayBody` sent by `owner`. -/
def reversedStayBooking : Booking :=
  { sampleHotel with
    numberOfRooms := none, guestsAdults := none, checkOutDate := some (atDay 9) }

/-- A hotel request that gives no check-out date. -/
def noCheckOutBody : BookingBody :=
  { type := some "hotel", hotel := some "h1", checkInDate := some (atDay 10),
    roomType := some "deluxe", totalPrice := some 9000 }

end Backend

namespace Backend

/-- A hotel request that also names a restaurant. -/
def twoTargetsBody : BookingBody :=
  { type := some "hotel", hotel := some "h1", restaurant := some "r1",
    checkInDate := some (atDay 10), checkOutDate := some (atDay 11),
    roomType := some "deluxe", totalPrice := some 9000 }

/-- The document createBooking stores for `twoTargetsBody` sent by `owner`. -/
def twoTargetsBooking : Booking :=
  { sampleHotel with numberOfRooms := none, guestsAdults := none, restaurant := some "r1" }

/-- A hotel request with every path the hook asks for. -/
def plainHotelBody : BookingBody :=
  { type := some "hotel", hotel := some "h1", checkInDate := some (atDay 10),
    checkOutDate := some (atDay 11), roomType := some "deluxe", totalPrice := some 9000 }

/-- The document createBooking stores for `plainHotelBody` sent by `owner`. -/
def plainHotelBooking : Booking :=
  { sampleHotel with numberOfRooms := none, guestsAdults := none }

end Backend

namespace Backend

/-- Favorites with two hotels and one restaurant. -/
def sampleFavorites : Favorites :=
  { hotels := ["507f1f77bcf86cd799439011", "507f1f77bcf86cd799439012"],
    restaurants := ["507f1f77bcf86cd799439021"], attractions := [] }

/-- The favorites `sampleFavorites` with its first hotel listed a second time. -/
def doubledFavorites : Favorites :=
  { hotels := ["507f1f77bcf86cd799439011", "507f1f77bcf86cd799439012",
      "507f1f77bcf86cd799439011"],
    restaurants := ["507f1f77bcf86cd799439021"], attractions := [] }

end Backend

namespace Frontend

/-- A hotel listed from 3000 rupees. -/
def listedHotel : HotelListing := { priceMatch := some 3000 }

/-- Two deluxe rooms from instant 0 to the end of the third day. -/
def deluxeForm : HotelForm :=
  { checkIn := 0, checkOut := 259200000, rooms := 2, roomType := "deluxe" }

/-- A hotel booking whose check-in is five days after instant 0. -/
def pageHotelFiveDays : Booking :=
  { type := "hotel", totalPrice := some 9000, checkIn := .valid 432000000 }

end Frontend

namespace Frontend

/-- An attraction booking without totalPrice, for two child tickets. -/
def pageChildTickets : Booking :=
  { type := "attraction", childTickets := some 2, date := .valid 432000000 }

/-- A hotel booking whose date string cannot be read as a date. -/
def pageUnreadableDate : Booking :=
  { type := "hotel", date := .unparsable }

end Frontend

namespace Nested

/-- A pending hotel booking of the nested variant, last written at instant 0. -/
def pendingHotel : Booking :=
  { cancelledHotel with status := "pending", paymentStatus := "pending", updatedAt := 0 }

/-- The booking `pendingHotel` after a cancellation at instant 432000000. -/
def pendingHotelCancelled : Booking :=
  { pendingHotel with
    status := "cancelled", paymentStatus := "refunded", updatedAt := 432000000 }

/-- A completed hotel booking that lacks the room type the schema requires of a hotel. -/
def completedNoRoomType : Booking :=
  { cancelledHotel with status := "completed", paymentStatus := "paid", roomType := none }

end Nested

namespace Frontend

/-- A hotel booking as HotelDetails.jsx writes it: the check-in is stored under `date`, at
instant 0, the check-out one day later, and there is no `checkIn` and no totalPrice. -/
def pageHotelFromDetails : Booking :=
  { type := "hotel", date := .valid 0, checkOut := .valid 86400000, rooms := some 1 }

end Frontend

namespace Frontend

/-- A hotel booking of 9000 as the Bookings page holds it, check-in two days after instant 0. -/
def pageHotel : Booking :=
  { type := "hotel", totalPrice := some 9000, checkIn := .valid 172800000,
    checkOut := .valid 259200000 }

/-- An attraction booking of 2000 whose visit is five days after instant 0. -/
def pageAttraction : Booking :=
  { type := "attraction", totalPrice := some 2000, date := .valid 432000000 }

/-- A restaurant booking of 2400 whose reservation is 48 hours after instant 0. -/
def pageRestaurant : Booking :=
  { type := "restaurant", totalPrice := some 2400, date := .valid 172800000 }

end Frontend

/-! ## Lemmas on the store and on the refund tiers -/

namespace Backend

theorem findBooking_id {db : Db} {id : ObjectId} {b : Booking}
    (h : findBooking db id = some b) : b.id = id := by
  unfold findBooking at h
  have hb := List.find?_some h
  simpa using hb

theorem find_map_replace (l : List Booking) (id : ObjectId) (b0 b : Booking)
    (h : l.find? (fun x => x.id == id) = some b0) (hb : b.id = id) :
    (l.map (fun x => if x.id == b.id then b else x)).find? (fun x => x.id == id) = some b := by
  induction l with
  | nil => simp at h
  | cons x xs ih =>
    simp only [List.map_cons, List.find?_cons] at h ⊢
    by_cases hx : x.id = id
    · simp [hx, hb]
    · have hx2 : (x.id == id) = false := by simpa using hx
      have hx3 : (x.id == b.id) = false := by rw [hb]; exact hx2
      rw [hx2] at h
      simp only [hx3, hx2, Bool.false_eq_true, if_false]
      exact ih h

theorem findBooking_writeBooking {db : Db} {id : ObjectId} {b0 b : Booking}
    (h : findBooking db id = some b0) (hb : b.id = id) :
    findBooking (writeBooking db b) id = some b := by
  unfold findBooking writeBooking
  exact find_map_replace db.bookings id b0 b h hb

theorem save_ok {db d : Db} {b : Booking} (h : save db b = .ok d) : d = writeBooking db b := by
  unfold save at h
  split at h
  · simp at h
  · split at h
    · simp at h
    · simpa using h.symm

/-- What a 200 reply of cancelBooking tells: the booking was found, the caller passed the
ownership test, the status was neither cancelled nor completed, and the returned document is
the stored one with the four cancellation fields set. -/
theorem cancelBooking_json {db db2 : Db} {now : Date} {caller : Caller} {id : ObjectId}
    {reason : Option String} {s : Nat} {b : Booking}
    (h : cancelBooking db now caller id reason = (Reply.json s b, db2)) :
    ∃ booking, findBooking db id = some booking ∧ notAuthorized booking caller = false
      ∧ booking.status ≠ "cancelled" ∧ booking.status ≠ "completed" ∧ s = 200
      ∧ b = markCancelled booking reason now
              (refundTier booking.totalPrice (daysUntilBooking booking now))
      ∧ db2 = writeBooking db b := by
  unfold cancelBooking at h
  cases hf : findBooking db id with
  | none => simp [hf] at h
  | some booking =>
    simp only [hf] at h
    split_ifs at h with h1 h2 h3
    · simp at h
    · simp at h
    · simp at h
    · refine ⟨booking, rfl, by simpa using h1, h2, h3, ?_⟩
      cases hsv : save db (markCancelled booking reason now
          (refundTier booking.totalPrice (daysUntilBooking booking now))) with
      | error e => simp [hsv] at h
      | ok d =>
        simp only [hsv, Prod.mk.injEq, Reply.json.injEq] at h
        obtain ⟨⟨hs, hb⟩, hdb⟩ := h
        subst hb
        exact ⟨hs.symm, rfl, by rw [← hdb]; exact save_ok hsv⟩

theorem refundTier_bounds (p : ℚ) (n : Int) (hp : 0 ≤ p) :
    0 ≤ refundTier p n ∧ refundTier p n ≤ p := by
  unfold refundTier
  split_ifs <;> constructor <;> norm_num <;> linarith

end Backend

namespace Backend

/-- What a JSON reply of updateBooking tells: the booking was found, the caller passed the
ownership test, the status was neither cancelled nor completed, the update validators
accepted the body, and the returned and stored document is the old one overwritten by the
body. -/
theorem updateBooking_json {db db2 : Db} {caller : Caller} {id : ObjectId}
    {body : BookingBody} {s : Nat} {b : Booking}
    (h : updateBooking db caller id body = (Reply.json s b, db2)) :
    ∃ booking, findBooking db id = some booking ∧ notAuthorized booking caller = false
      ∧ booking.status ≠ "cancelled" ∧ booking.status ≠ "completed"
      ∧ validateBody body = none ∧ s = 200
      ∧ b = applyBody booking body ∧ db2 = writeBooking db b := by
  unfold updateBooking at h
  cases hf : findBooking db id with
  | none => simp [hf] at h
  | some booking =>
    simp only [hf] at h
    split_ifs at h with h1 h2
    · simp at h
    · simp at h
    · have h2c : booking.status ≠ "cancelled" := fun hc => h2 (Or.inl hc)
      have h2d : booking.status ≠ "completed" := fun hc => h2 (Or.inr hc)
      refine ⟨booking, rfl, by simpa using h1, h2c, h2d, ?_⟩
      unfold findByIdAndUpdate at h
      cases hv : validateBody body with
      | some path => simp [hv] at h
      | none =>
        simp only [hv, Prod.mk.injEq, Reply.json.injEq] at h
        obtain ⟨⟨hs, hb⟩, hdb⟩ := h
        subst hb
        exact ⟨rfl, hs.symm, rfl, hdb.symm⟩

end Backend

namespace Backend

/-- What a successful `Booking.create` tells. -/
theorem create_ok {db db2 : Db} {newId : ObjectId} {now : Date} {body : BookingBody}
    {b : Booking} (h : create db newId now body = .ok (b, db2)) :
    ∃ user type totalPrice, body.user = some user ∧ body.type = some type
      ∧ body.totalPrice = some totalPrice
      ∧ b = newDocument newId now user type totalPrice body
      ∧ validateDoc b = none ∧ preSave b = none
      ∧ db2 = { db with bookings := db.bookings ++ [b] } := by
  unfold create at h
  cases hu : body.user with
  | none => simp [hu] at h
  | some user =>
    cases ht : body.type with
    | none => simp [hu, ht] at h
    | some type =>
      cases hp : body.totalPrice with
      | none => simp [hu, ht, hp] at h
      | some totalPrice =>
        simp only [hu, ht, hp] at h
        cases hv : validateDoc (newDocument newId now user type totalPrice body) with
        | some path => simp [hv] at h
        | none =>
          cases hs : preSave (newDocument newId now user type totalPrice body) with
          | some err => simp [hv, hs] at h
          | none =>
            simp only [hv, hs, Except.ok.injEq, Prod.mk.injEq] at h
            obtain ⟨hb, hdb⟩ := h
            subst hb
            exact ⟨user, type, totalPrice, rfl, rfl, rfl, rfl, hv, hs, hdb.symm⟩

/-- What a JSON reply of createBooking tells: the body names a type and a total price, the
returned document is the one built from the body with the caller as owner, it passed the
validators and the hook, and it was appended to the collection. -/
theorem createBooking_json {db db2 : Db} {newId : ObjectId} {now : Date} {caller : Caller}
    {body : BookingBody} {s : Nat} {b : Booking}
    (h : createBooking db newId now caller body = (Reply.json s b, db2)) :
    ∃ type totalPrice, body.type = some type ∧ body.totalPrice = some totalPrice ∧ s = 201
      ∧ b = newDocument newId now caller.id type totalPrice
              { body with user := some caller.id }
      ∧ validateDoc b = none ∧ preSave b = none
      ∧ db2 = { db with bookings := db.bookings ++ [b] } := by
  unfold createBooking at h
  simp only at h
  split at h
  · simp at h
  · split_ifs at h with hitem
    · simp at h
    · cases hc : create db newId now { body with user := some caller.id } with
      | error e => simp [hc] at h
      | ok r =>
        obtain ⟨doc, dbNew⟩ := r
        simp only [hc, Prod.mk.injEq, Reply.json.injEq] at h
        obtain ⟨⟨h201, hb⟩, hdb⟩ := h
        subst hb
        subst hdb
        obtain ⟨user, type, totalPrice, hu, ht, hp, hdoc, hv, hs, hnew⟩ := create_ok hc
        have huser : user = caller.id := by
          have : some caller.id = some user := hu
          exact (Option.some.inj this).symm
        subst huser
        exact ⟨type, totalPrice, ht, hp, h201.symm, hdoc, hv, hs, hnew⟩

end Backend

namespace Backend

/-- The hook rejects a hotel document that lacks the check-in date, the check-out date or
the room type. -/
theorem preSave_hotel_missing (b : Booking) (htype : b.type = "hotel")
    (hmiss : b.checkInDate = none ∨ b.checkOutDate = none ∨ truthyStr b.roomType = false) :
    preSave b
      = some "Hotel bookings require hotel, check-in date, check-out date, and room type" := by
  unfold preSave
  rw [if_pos htype]
  rcases hmiss with h | h | h <;> simp [h]

/-- `Booking.create` fails on a hotel body that lacks one of these three paths. -/
theorem create_hotel_missing (db : Db) (newId : ObjectId) (now : Date) (body : BookingBody)
    (htype : body.type = some "hotel")
    (hmiss : body.checkInDate = none ∨ body.checkOutDate = none
      ∨ truthyStr body.roomType = false) :
    ∃ msg, create db newId now body = .error msg := by
  unfold create
  cases hu : body.user with
  | none => exact ⟨"User ID is required", by simp [hu]⟩
  | some user =>
    cases hp : body.totalPrice with
    | none => exact ⟨"Total price is required", by simp [hu, htype, hp]⟩
    | some totalPrice =>
      simp only [hu, htype, hp]
      cases hv : validateDoc (newDocument newId now user "hotel" totalPrice body) with
      | some path => exact ⟨_, rfl⟩
      | none =>
        have hs := preSave_hotel_missing (newDocument newId now user "hotel" totalPrice body)
          rfl hmiss
        simp only [hs]
        exact ⟨_, rfl⟩

end Backend

namespace Backend

/-- A document appended under an id no stored booking bears is the one found under it. -/
theorem find_append_fresh (l : List Booking) (b : Booking)
    (hfresh : ∀ x ∈ l, x.id ≠ b.id) :
    (l ++ [b]).find? (fun x => x.id == b.id) = some b := by
  induction l with
  | nil => simp
  | cons x xs ih =>
    have hx : (x.id == b.id) = false := by
      simpa using hfresh x (List.mem_cons_self x xs)
    simp only [List.cons_append, List.find?_cons, hx]
    exact ih (fun y hy => hfresh y (List.mem_cons_of_mem x hy))

end Backend

/-- Appending an id a duplicate-free list does not hold keeps it duplicate-free, and the id
then occurs once. -/
theorem nodup_append_new (ids : List ObjectId) (i : ObjectId) (hn : ids.Nodup)
    (hi : i ∉ ids) : (ids ++ [i]).Nodup ∧ (ids ++ [i]).count i = 1 := by
  constructor
  · rw [List.nodup_append]
    refine ⟨hn, List.nodup_singleton i, ?_⟩
    intro a ha hb
    have : a = i := by simpa using hb
    exact hi (this ▸ ha)
  · rw [List.count_append, List.count_eq_zero_of_not_mem hi]
    simp

theorem refundTier_mono (p : ℚ) (n1 n2 : Int) (hp : 0 ≤ p) (hn : n1 ≤ n2) :
    Backend.refundTier p n1 ≤ Backend.refundTier p n2 := by
  unfold Backend.refundTier
  split_ifs <;> first | omega | (norm_num; linarith) | linarith

theorem ceilDiv_mono_day (a b : Int) (h : a ≤ b) : ceilDiv a msPerDay ≤ ceilDiv b msPerDay := by
  simp only [ceilDiv, msPerDay]
  omega

theorem ceilDiv_mono_hour (a b : Int) (h : a ≤ b) :
    ceilDiv a msPerHour ≤ ceilDiv b msPerHour := by
  simp only [ceilDiv, msPerHour]
  omega

/-! ## Lemmas on deletion -/

theorem find_filter_ne {α : Type} (f : α → ObjectId) (l : List α) (i : ObjectId) :
    (l.filter (fun x => f x != i)).find? (fun x => f x == i) = none := by
  rw [List.find?_eq_none]
  intro x hx
  have hne := (List.mem_filter.mp hx).2
  simpa using hne

namespace Backend

theorem findBooking_removeBooking {db : Db} {id : ObjectId} {b : Booking}
    (h : findBooking db id = some b) : findBooking (removeBooking db b) id = none := by
  have hid := findBooking_id h
  unfold findBooking removeBooking
  rw [hid]
  exact find_filter_ne (fun x => x.id) db.bookings id

/-- The reply and the store of deleteBooking on a stored booking. -/
theorem deleteBooking_found {db : Db} {id : ObjectId} {b : Booking} (caller : Caller)
    (h : findBooking db id = some b) :
    deleteBooking db caller id
      = if caller.role = "admin" then (Reply.json 200 (), removeBooking db b)
        else (Reply.errorResponse "Not authorized to delete bookings" 401, db) := by
  unfold deleteBooking
  simp only [h]
  by_cases hr : caller.role = "admin" <;> simp [hr]

end Backend

namespace Nested

theorem nested_findBooking_id {db : Db} {id : ObjectId} {b : Booking}
    (h : findBooking db id = some b) : b.id = id := by
  unfold findBooking at h
  have hb := List.find?_some h
  simpa using hb

theorem nested_findBooking_removeBooking {db : Db} {id : ObjectId} {b : Booking}
    (h : findBooking db id = some b) : findBooking (removeBooking db b) id = none := by
  have hid := nested_findBooking_id h
  unfold findBooking removeBooking
  rw [hid]
  exact find_filter_ne (fun x => x.id) db.bookings id

/-- The reply and the store of the nested deleteBooking on a stored booking. -/
theorem nested_deleteBooking_found {db : Db} {id : ObjectId} {b : Booking} (caller : Caller)
    (h : findBooking db id = some b) :
    deleteBooking db caller id
      = if caller.id = b.user ∨ caller.role = "admin" then
          (Reply.json 200 (), removeBooking db b)
        else (Reply.failure 401 "Not authorized to delete this booking", db) := by
  unfold deleteBooking
  simp only [h]
  by_cases hu : caller.id = b.user
  · simp [notAuthorized, hu]
  · have hu2 : ¬ b.user = caller.id := fun e => hu e.symm
    by_cases hr : caller.role = "admin" <;> simp [notAuthorized, hu, hu2, hr]

end Nested

/-! ## Lemmas on the day counts -/

theorem floorDiv_msPerDay (ms : Int) : floorDiv ms msPerDay = ⌊(ms : ℚ) / 86400000⌋ := by
  have h := Rat.floor_intCast_div_natCast ms 86400000
  simp only [floorDiv, msPerDay]
  rw [show ((86400000 : ℕ) : ℚ) = 86400000 by norm_num] at h
  rw [h]; norm_num

theorem ceilDiv_msPerDay (ms : Int) : ceilDiv ms msPerDay = ⌈(ms : ℚ) / 86400000⌉ := by
  have h := floorDiv_msPerDay (-ms)
  unfold floorDiv at h
  unfold ceilDiv
  rw [h, ← Int.ceil_neg]
  congr 1
  push_cast
  ring

theorem ceilDiv_msPerHour (ms : Int) : ceilDiv ms msPerHour = ⌈(ms : ℚ) / 3600000⌉ := by
  have h := Rat.floor_intCast_div_natCast (-ms) 3600000
  rw [show ((3600000 : ℕ) : ℚ) = 3600000 by norm_num] at h
  simp only [ceilDiv, msPerHour]
  rw [show (1000 * 60 * 60 : Int) = ((3600000 : ℕ) : ℤ) by norm_num, ← h, ← Int.ceil_neg]
  congr 1
  push_cast
  ring

theorem ceilDiv_hours_days (ms : Int) : ceilDiv ms msPerHour > 24 ↔ ceilDiv ms msPerDay > 1 := by
  simp only [ceilDiv, msPerHour, msPerDay]
  omega

namespace Frontend

/-- The percentage of the hotel branch as a function of the day count. -/
theorem hotel_percentage (today t : Date) (b : Booking) (htype : b.type = "hotel")
    (hdate : b.checkIn = .valid t) :
    (calculateCancellationFee today b).percentage
      = if ceilDiv (t - today) msPerDay ≤ 1 then 100
        else if ceilDiv (t - today) msPerDay ≤ 3 then 75
        else if ceilDiv (t - today) msPerDay ≤ 7 then 50 else 10 := by
  simp only [calculateCancellationFee, htype, hdate, DateField.toDate, ceilDiff, jsLe,
    if_true, decide_eq_true_eq]
  split_ifs <;> rfl

/-- The fee of the attraction branch as a function of the day count. -/
theorem attraction_fee (today t : Date) (b : Booking) (htype : b.type = "attraction")
    (hdate : b.date = .valid t) :
    calculateCancellationFee today b
      = if ceilDiv (t - today) msPerDay ≤ 1 then { percentage := 75, amount := rawPrice b * 0.75 }
        else if ceilDiv (t - today) msPerDay ≤ 3 then
          { percentage := 50, amount := rawPrice b * 0.5 }
        else { percentage := 20, amount := rawPrice b * 0.2 } := by
  have h1 : ¬ ("attraction" : String) = "hotel" := by decide
  have h2 : ¬ ("attraction" : String) = "restaurant" := by decide
  simp only [calculateCancellationFee, h1, h2, htype, hdate, DateField.toDate, ceilDiff, jsLe,
    if_true, if_false, decide_eq_true_eq]

/-- The percentage of the restaurant branch as a function of the hour count. -/
theorem restaurant_percentage (today : Date) (b : Booking) (htype : b.type = "restaurant") :
    (calculateCancellationFee today b).percentage
      = if jsGt (ceilDiff b.date.toDate (some today) msPerHour) 24 then 0 else 20 := by
  have h1 : ¬ ("restaurant" : String) = "hotel" := by decide
  simp only [calculateCancellationFee, h1, htype, if_true, if_false]
  split_ifs <;> rfl

end Frontend

namespace Frontend

/-- With a positive numeric totalPrice the fee amount is totalPrice * percentage / 100. -/
theorem fee_amount_of_totalPrice (today : Date) (b : Booking) (p : ℚ)
    (hp : b.totalPrice = some p) (hpos : 0 < p) :
    (calculateCancellationFee today b).amount
      = p * (calculateCancellationFee today b).percentage / 100 := by
  have hraw : rawPrice b = p := by
    have hne : ¬ p = 0 := ne_of_gt hpos
    simp [rawPrice, hp, hne]
  unfold calculateCancellationFee
  simp only [hraw]
  split_ifs <;> norm_num <;> ring

/-- Where the percentage is not 0, the modal recovers the total price and shows the refund
totalPrice - amount. -/
theorem breakdown_refund_of_percentage (today : Date) (b : Booking) (p : ℚ)
    (hp : b.totalPrice = some p) (hpos : 0 < p)
    (hpct : (calculateCancellationFee today b).percentage ≠ 0) :
    (cancellationBreakdown today b).originalAmount = .num p
      ∧ (cancellationBreakdown today b).refundAmount
        = .num (p - (calculateCancellationFee today b).amount) := by
  have hamt := fee_amount_of_totalPrice today b p hp hpos
  have hdiv : (calculateCancellationFee today b).percentage / 100 ≠ 0 :=
    div_ne_zero hpct (by norm_num)
  have horig : jsDiv (calculateCancellationFee today b).amount
      ((calculateCancellationFee today b).percentage / 100) = .num p := by
    simp only [jsDiv, if_pos hdiv]
    congr 1
    rw [hamt]
    field_simp
  simp only [cancellationBreakdown, horig, jsSub]
  exact ⟨trivial, trivial⟩

end Frontend

namespace Nested

theorem nested_find_map_replace (l : List Booking) (id : ObjectId) (b0 b : Booking)
    (h : l.find? (fun x => x.id == id) = some b0) (hb : b.id = id) :
    (l.map (fun x => if x.id == id then b else x)).find? (fun x => x.id == id) = some b := by
  induction l with
  | nil => simp at h
  | cons x xs ih =>
    simp only [List.map_cons, List.find?_cons] at h ⊢
    by_cases hx : x.id = id
    · simp [hx, hb]
    · have hx2 : (x.id == id) = false := by simpa using hx
      rw [hx2] at h
      simp only [hx2, Bool.false_eq_true, if_false]
      exact ih h

end Nested

/-! ## Lemmas on the Bookings page -/

namespace Frontend

theorem jsRound_intCast (n : Int) : jsRound (n : ℚ) = n := by
  unfold jsRound
  have h : ⌊(n : ℚ) + 1 / 2⌋ = n := by
    rw [Int.floor_eq_iff]
    constructor <;> linarith
  rw [h]

theorem jsParseInt_natCast (n : Nat) : jsParseInt (n : ℚ) = n := by
  unfold jsParseInt
  rw [if_pos (Nat.cast_nonneg n)]
  simp

/-- For a hotel or restaurant booking, the price displayed is the rounded price on which
the fee is computed. -/
theorem getFormattedPrice_eq_round_rawPrice (b : Booking)
    (htype : b.type = "hotel" ∨ b.type = "restaurant") :
    getFormattedPrice b = jsRound (rawPrice b) := by
  have hr : ¬ ("restaurant" : String) = "hotel" := by decide
  unfold getFormattedPrice rawPrice
  rcases htype with h | h
  · simp only [h, if_true]
  · simp only [h, hr, if_true, if_false]

/-- A booking whose date reads as a date is listed under exactly one of the two tabs, under
upcoming exactly when its local day is not before the local day of today. -/
theorem inTab_of_readable_date (tz : Int) (today t : Date) (b : Booking)
    (hdate : (match b.date.orElse b.checkIn with
      | .absent => some today
      | f => f.toDate) = some t) :
    (inTab tz today "upcoming" b = true ↔ localDay tz t ≥ localDay tz today)
      ∧ (inTab tz today "past" b = true ↔ localDay tz t < localDay tz today)
      ∧ (inTab tz today "upcoming" b = !inTab tz today "past" b) := by
  have hp : ¬ ("past" : String) = "upcoming" := by decide
  have hu : inTab tz today "upcoming" b = decide (localDay tz t ≥ localDay tz today) := by
    simp only [inTab, hdate, if_true]
  have hpast : inTab tz today "past" b = decide (localDay tz t < localDay tz today) := by
    simp only [inTab, hdate, hp, if_false]
  refine ⟨by rw [hu]; simp, by rw [hpast]; simp, ?_⟩
  rw [hu, hpast]
  by_cases h : localDay tz t < localDay tz today
  · have h2 : ¬ localDay tz t ≥ localDay tz today := not_le.mpr h
    simp [h, h2]
  · have h2 : localDay tz t ≥ localDay tz today := not_lt.mp h
    simp [h, h2]

end Frontend

/-! ## Properties stated by the specification -/

namespace Backend

/-- C1 (counterexample): createBooking accepts a hotel booking whose body names the total
price -100; cancelling it two days before check-in succeeds and stores refundAmount = -50,
which is below 0 and above totalPrice. -/
theorem cancelBooking_refund_outside_bounds :
    createBooking emptyDb "b1" 0 owner negPriceBody
        = (Reply.json 201 negPriceBooking, { emptyDb with bookings := [negPriceBooking] })
      ∧ cancelBooking { emptyDb with bookings := [negPriceBooking] } (atDay 8) owner "b1" none
        = (Reply.json 200 (markCancelled negPriceBooking none (atDay 8) (-50)),
            { emptyDb with bookings := [markCancelled negPriceBooking none (atDay 8) (-50)] })
      ∧ (markCancelled negPriceBooking none (atDay 8) (-50)).refundAmount = some (-50)
      ∧ (markCancelled negPriceBooking none (atDay 8) (-50)).totalPrice = -100
      ∧ ¬ (0 ≤ (-50 : ℚ) ∧ (-50 : ℚ) ≤ -100) := by
  refine ⟨?_, ?_, rfl, rfl, by norm_num⟩
  · simp [createBooking, emptyDb, owner, negPriceBody, negPriceBooking, sampleHotel, itemExists,
      create, newDocument, validateDoc, preSave, truthyStr]
  · simp [cancelBooking, emptyDb, owner, negPriceBooking, sampleHotel, atDay,
      findBooking, notAuthorized, refundTier, daysUntilBooking, floorDiv, msPerDay, save,
      validateDoc, preSave, truthyStr, reasonOrDefault, writeBooking, markCancelled]
    norm_num

/-- C1 (amended): for every stored booking whose totalPrice is not negative, when
cancelBooking succeeds the document it stores and returns keeps that totalPrice and carries
a refundAmount r with 0 <= r <= totalPrice. -/
theorem cancelBooking_refund_within_price (db db2 : Db) (now : Date) (caller : Caller)
    (id : ObjectId) (reason : Option String) (booking b : Booking)
    (hfind : findBooking db id = some booking) (hprice : 0 ≤ booking.totalPrice)
    (h : cancelBooking db now caller id reason = (Reply.json 200 b, db2)) :
    findBooking db2 id = some b ∧ b.totalPrice = booking.totalPrice
      ∧ ∃ r, b.refundAmount = some r ∧ 0 ≤ r ∧ r ≤ b.totalPrice := by
  obtain ⟨bk, hbk, -, -, -, -, hb, hdb⟩ := cancelBooking_json h
  rw [hfind] at hbk
  cases hbk
  have hid : b.id = id := by
    rw [hb]
    show booking.id = id
    exact findBooking_id hfind
  have hbounds := refundTier_bounds booking.totalPrice (daysUntilBooking booking now) hprice
  have htp : b.totalPrice = booking.totalPrice := by rw [hb]; rfl
  refine ⟨?_, htp, ?_⟩
  · rw [hdb]; exact findBooking_writeBooking hfind hid
  · refine ⟨refundTier booking.totalPrice (daysUntilBooking booking now), by rw [hb]; rfl, ?_, ?_⟩
    · exact hbounds.1
    · rw [htp]; exact hbounds.2

/-- C1 (witness): `sampleHotel`, price 9000, cancelled two days before check-in. -/
theorem cancelBooking_refund_within_price_witness :
    findBooking sampleDb "b1" = some sampleHotel ∧ 0 ≤ sampleHotel.totalPrice
      ∧ (findBooking { emptyDb with bookings := [markCancelled sampleHotel none (atDay 8) 4500] }
            "b1" = some (markCancelled sampleHotel none (atDay 8) 4500)
        ∧ (markCancelled sampleHotel none (atDay 8) 4500).totalPrice = sampleHotel.totalPrice
        ∧ ∃ r, (markCancelled sampleHotel none (atDay 8) 4500).refundAmount = some r ∧ 0 ≤ r
            ∧ r ≤ (markCancelled sampleHotel none (atDay 8) 4500).totalPrice) :=
  have h1 : findBooking sampleDb "b1" = some sampleHotel := by
    simp [findBooking, sampleDb, sampleHotel]
  have h2 : 0 ≤ sampleHotel.totalPrice := by norm_num [sampleHotel]
  ⟨h1, h2, cancelBooking_refund_within_price sampleDb _ (atDay 8) owner "b1" none sampleHotel
    _ h1 h2 (by
      simp [cancelBooking, sampleDb, emptyDb, owner, sampleHotel, atDay,
        findBooking, notAuthorized, refundTier, daysUntilBooking, floorDiv, msPerDay, save,
        validateDoc, preSave, truthyStr, reasonOrDefault, writeBooking, markCancelled]
      norm_num)⟩

/-- C3 (counterexample): on `sampleHotel`, a hotel booking of 9000, cancelBooking stores
4500 (not 2250) two days before check-in, 9000 (not 0.9 * 9000) ten days before, and 2250
(not 0) at the instant of check-in. -/
theorem cancelBooking_ignores_type_table :
    (cancelBooking sampleDb (atDay 8) owner "b1" none).1
        = Reply.json 200 (markCancelled sampleHotel none (atDay 8) 4500)
      ∧ (4500 : ℚ) ≠ 2250
      ∧ (cancelBooking sampleDb (atDay 0) owner "b1" none).1
        = Reply.json 200 (markCancelled sampleHotel none (atDay 0) 9000)
      ∧ (9000 : ℚ) ≠ 0.9 * 9000
      ∧ (cancelBooking sampleDb (atDay 10) owner "b1" none).1
        = Reply.json 200 (markCancelled sampleHotel none (atDay 10) 2250)
      ∧ (2250 : ℚ) ≠ 0 := by
  refine ⟨?_, by norm_num, ?_, by norm_num, ?_, by norm_num⟩
  · simp [cancelBooking, sampleDb, emptyDb, owner, sampleHotel, atDay,
      findBooking, notAuthorized, refundTier, daysUntilBooking, floorDiv, msPerDay, save,
      validateDoc, preSave, truthyStr, reasonOrDefault, writeBooking, markCancelled]
    norm_num
  · simp [cancelBooking, sampleDb, emptyDb, owner, sampleHotel, atDay,
      findBooking, notAuthorized, refundTier, daysUntilBooking, floorDiv, msPerDay, save,
      validateDoc, preSave, truthyStr, reasonOrDefault, writeBooking, markCancelled]
  · simp [cancelBooking, sampleDb, emptyDb, owner, sampleHotel, atDay,
      findBooking, notAuthorized, refundTier, daysUntilBooking, floorDiv, msPerDay, save,
      validateDoc, preSave, truthyStr, reasonOrDefault, writeBooking, markCancelled]
    norm_num

/-- C3 (amended): cancelBooking takes refundAmount from its own tiers on the day count
n = floor((check-in - now) / 1 day): for every hotel booking on which it succeeds,
n > 7 stores refundAmount = totalPrice (no fee), n <= 1 stores 0.25 * totalPrice (fee 75%),
and for totalPrice = 9000 with n = 2 it stores 4500. -/
theorem cancelBooking_hotel_refund (db db2 : Db) (now : Date) (caller : Caller)
    (id : ObjectId) (reason : Option String) (booking b : Booking) (d : Date)
    (hfind : findBooking db id = some booking) (htype : booking.type = "hotel")
    (hdate : booking.checkInDate = some d)
    (h : cancelBooking db now caller id reason = (Reply.json 200 b, db2)) :
    (floorDiv (d - now) msPerDay > 7 → b.refundAmount = some booking.totalPrice)
      ∧ (floorDiv (d - now) msPerDay ≤ 1 → b.refundAmount = some (0.25 * booking.totalPrice))
      ∧ (booking.totalPrice = 9000 → floorDiv (d - now) msPerDay = 2
          → b.refundAmount = some 4500) := by
  obtain ⟨bk, hbk, -, -, -, -, hb, -⟩ := cancelBooking_json h
  rw [hfind] at hbk
  cases hbk
  have hdays : daysUntilBooking booking now = floorDiv (d - now) msPerDay := by
    simp [daysUntilBooking, htype, hdate]
  have hr : b.refundAmount = some (refundTier booking.totalPrice (floorDiv (d - now) msPerDay)) := by
    rw [hb, hdays]; rfl
  refine ⟨?_, ?_, ?_⟩
  · intro hn
    rw [hr]; simp [refundTier, hn]
  · intro hn
    have h7 : ¬ floorDiv (d - now) msPerDay > 7 := by omega
    have h3 : ¬ floorDiv (d - now) msPerDay > 3 := by omega
    have h1 : ¬ floorDiv (d - now) msPerDay > 1 := by omega
    rw [hr]; simp only [refundTier, h7, h3, h1, if_false]
    congr 1; ring
  · intro hp hn
    rw [hr, hp, hn]; norm_num [refundTier]

/-- C3 (witness): `sampleHotel` cancelled two days before its check-in. -/
theorem cancelBooking_hotel_refund_witness :
    findBooking sampleDb "b1" = some sampleHotel ∧ sampleHotel.type = "hotel"
      ∧ sampleHotel.checkInDate = some (atDay 10)
      ∧ ((floorDiv (atDay 10 - atDay 8) msPerDay > 7
            → (markCancelled sampleHotel none (atDay 8) 4500).refundAmount
              = some sampleHotel.totalPrice)
        ∧ (floorDiv (atDay 10 - atDay 8) msPerDay ≤ 1
            → (markCancelled sampleHotel none (atDay 8) 4500).refundAmount
              = some (0.25 * sampleHotel.totalPrice))
        ∧ (sampleHotel.totalPrice = 9000 → floorDiv (atDay 10 - atDay 8) msPerDay = 2
            → (markCancelled sampleHotel none (atDay 8) 4500).refundAmount = some 4500)) :=
  have h1 : findBooking sampleDb "b1" = some sampleHotel := by
    simp [findBooking, sampleDb, sampleHotel]
  ⟨h1, rfl, rfl, cancelBooking_hotel_refund sampleDb
    { emptyDb with bookings := [markCancelled sampleHotel none (atDay 8) 4500] }
    (atDay 8) owner "b1" none sampleHotel _ (atDay 10) h1 rfl rfl (by
      simp [cancelBooking, sampleDb, emptyDb, owner, sampleHotel, atDay,
        findBooking, notAuthorized, refundTier, daysUntilBooking, floorDiv, msPerDay, save,
        validateDoc, preSave, truthyStr, reasonOrDefault, writeBooking, markCancelled]
      norm_num)⟩

end Backend

namespace Frontend

/-- For a hotel booking whose `checkIn` field reads as the instant t, with
d = ceiling((t - today) / 1 day), calculateCancellationFee returns percentage 100 when
d <= 1, 75 when 2 <= d <= 3, 50 when 4 <= d <= 7 and 10 when d > 7. -/
theorem calculateCancellationFee_hotel_tiers (today t : Date) (b : Booking)
    (htype : b.type = "hotel") (hdate : b.checkIn = .valid t) :
    (⌈((t - today : Int) : ℚ) / 86400000⌉ ≤ 1
        → (calculateCancellationFee today b).percentage = 100)
      ∧ (2 ≤ ⌈((t - today : Int) : ℚ) / 86400000⌉ ∧ ⌈((t - today : Int) : ℚ) / 86400000⌉ ≤ 3
        → (calculateCancellationFee today b).percentage = 75)
      ∧ (4 ≤ ⌈((t - today : Int) : ℚ) / 86400000⌉ ∧ ⌈((t - today : Int) : ℚ) / 86400000⌉ ≤ 7
        → (calculateCancellationFee today b).percentage = 50)
      ∧ (7 < ⌈((t - today : Int) : ℚ) / 86400000⌉
        → (calculateCancellationFee today b).percentage = 10) := by
  rw [hotel_percentage today t b htype hdate, ← ceilDiv_msPerDay]
  generalize ceilDiv (t - today) msPerDay = d
  refine ⟨fun h => ?_, fun h => ?_, fun h => ?_, fun h => ?_⟩
  · rw [if_pos h]
  · rw [if_neg (by omega), if_pos h.2]
  · rw [if_neg (by omega), if_neg (by omega), if_pos h.2]
  · rw [if_neg (by omega), if_neg (by omega), if_neg (by omega)]

/-- C2 (failing input): `pageHotelFromDetails` keeps its check-in, instant 0, under `date`.
Seen at instant 0 the day count to check-in is 0, for which the hotel tiers give 100%; the
price fallback of the same function reads `checkIn || date` and finds the check-in, but the
fee branch reads `checkIn` alone, gets NaN for the day count, fails its three tests and
returns 10% of the fallback price 3000. -/
theorem hotel_fee_ignores_date_field :
    pageHotelFromDetails.checkIn = .absent ∧ pageHotelFromDetails.date = .valid 0
      ∧ (pageHotelFromDetails.checkIn.orElse pageHotelFromDetails.date).toDate = some 0
      ∧ ⌈(((0 : Int) - 0 : Int) : ℚ) / 86400000⌉ ≤ 1
      ∧ rawPrice pageHotelFromDetails = 3000
      ∧ calculateCancellationFee 0 pageHotelFromDetails = { percentage := 10, amount := 300 }
      ∧ (calculateCancellationFee 0 pageHotelFromDetails).percentage ≠ 100 := by
  have hraw : rawPrice pageHotelFromDetails = 3000 := by
    simp [rawPrice, pageHotelFromDetails, fallbackNights, DateField.orElse, DateField.toDate,
      ceilDiff, ceilDiv, msPerDay, numOr]
  have hfee : calculateCancellationFee 0 pageHotelFromDetails
      = { percentage := 10, amount := 300 } := by
    simp only [calculateCancellationFee, hraw]
    simp [pageHotelFromDetails, DateField.toDate, ceilDiff, jsLe]
    norm_num
  refine ⟨rfl, rfl, rfl, by norm_num, hraw, hfee, ?_⟩
  rw [hfee]
  norm_num

/-- C4: for an attraction booking whose visit date reads as the instant t, with
d = ceiling((t - today) / 1 day), calculateCancellationFee returns percentage 75 when
d <= 1, 50 when 2 <= d <= 3 and 20 when d > 3; with totalPrice = 2000 and d = 5 it returns
percentage 20 and amount 400, and the modal shows the refund 1600. -/
theorem calculateCancellationFee_attraction_tiers (today t : Date) (b : Booking)
    (htype : b.type = "attraction") (hdate : b.date = .valid t) :
    (⌈((t - today : Int) : ℚ) / 86400000⌉ ≤ 1
        → (calculateCancellationFee today b).percentage = 75)
      ∧ (2 ≤ ⌈((t - today : Int) : ℚ) / 86400000⌉ ∧ ⌈((t - today : Int) : ℚ) / 86400000⌉ ≤ 3
        → (calculateCancellationFee today b).percentage = 50)
      ∧ (3 < ⌈((t - today : Int) : ℚ) / 86400000⌉
        → (calculateCancellationFee today b).percentage = 20)
      ∧ (b.totalPrice = some 2000 → ⌈((t - today : Int) : ℚ) / 86400000⌉ = 5
        → calculateCancellationFee today b = { percentage := 20, amount := 400 }
          ∧ (cancellationBreakdown today b).refundAmount = .num 1600) := by
  have hfee := attraction_fee today t b htype hdate
  rw [← ceilDiv_msPerDay]
  generalize ceilDiv (t - today) msPerDay = d at hfee ⊢
  refine ⟨fun h => ?_, fun h => ?_, fun h => ?_, fun hp h => ?_⟩
  · rw [hfee, if_pos h]
  · rw [hfee, if_neg (by omega), if_pos h.2]
  · rw [hfee, if_neg (by omega), if_neg (by omega)]
  · have hraw : rawPrice b = 2000 := by simp [rawPrice, hp]
    have hval : calculateCancellationFee today b = { percentage := 20, amount := 400 } := by
      rw [hfee, if_neg (by omega), if_neg (by omega), hraw]; norm_num
    refine ⟨hval, ?_⟩
    simp only [cancellationBreakdown, hval, jsDiv, jsSub]
    norm_num

/-- C4 (witness): `pageAttraction`, price 2000, five days before the visit. -/
theorem calculateCancellationFee_attraction_tiers_witness :
    pageAttraction.type = "attraction" ∧ pageAttraction.date = .valid 432000000
      ∧ pageAttraction.totalPrice = some 2000
      ∧ calculateCancellationFee 0 pageAttraction = { percentage := 20, amount := 400 }
      ∧ (cancellationBreakdown 0 pageAttraction).refundAmount = .num 1600 :=
  ⟨rfl, rfl, rfl,
    (calculateCancellationFee_attraction_tiers 0 432000000 pageAttraction rfl rfl).2.2.2 rfl
      (by norm_num)⟩

/-- C5: for a restaurant booking whose reservation reads as the instant t,
calculateCancellationFee returns percentage 0 when ceiling((t - today) / 1 day) > 1 and 20
otherwise, its test ceiling((t - today) / 1 hour) > 24 being equivalent to that one; when
the reservation date cannot be read the percentage is 20. -/
theorem calculateCancellationFee_restaurant_tiers (today : Date) (b : Booking)
    (htype : b.type = "restaurant") :
    (∀ t : Date, b.date = .valid t →
        (calculateCancellationFee today b).percentage
            = (if ⌈((t - today : Int) : ℚ) / 86400000⌉ > 1 then 0 else 20)
          ∧ (⌈((t - today : Int) : ℚ) / 3600000⌉ > 24
              ↔ ⌈((t - today : Int) : ℚ) / 86400000⌉ > 1))
      ∧ (b.date.toDate = none → (calculateCancellationFee today b).percentage = 20) := by
  have hp := restaurant_percentage today b htype
  refine ⟨fun t hdate => ?_, fun hnone => ?_⟩
  · have heq := ceilDiv_hours_days (t - today)
    rw [ceilDiv_msPerHour, ceilDiv_msPerDay] at heq
    refine ⟨?_, heq⟩
    rw [hp]
    simp only [hdate, DateField.toDate, ceilDiff, jsGt, decide_eq_true_eq, ceilDiv_msPerHour]
    by_cases hd : ⌈((t - today : Int) : ℚ) / 86400000⌉ > 1
    · rw [if_pos (heq.mpr hd), if_pos hd]
    · rw [if_neg (fun hh => hd (heq.mp hh)), if_neg hd]
  · rw [hp, hnone]
    simp [ceilDiff, jsGt]

/-- C5 (witness): `pageRestaurant`, 48 hours before the reservation, where no fee is due. -/
theorem calculateCancellationFee_restaurant_tiers_witness :
    pageRestaurant.type = "restaurant" ∧ pageRestaurant.date = .valid 172800000
      ∧ (calculateCancellationFee 0 pageRestaurant).percentage = 0 :=
  ⟨rfl, rfl, by
    rw [((calculateCancellationFee_restaurant_tiers 0 pageRestaurant rfl).1 172800000 rfl).1]
    norm_num⟩

/-- C6 (failing input): for `pageRestaurant`, price 2400 and reservation 48 hours ahead,
calculateCancellationFee returns percentage 0 and amount 0; the modal then divides 0 by 0,
so the original amount and the refund it shows are NaN, not the total price 2400. -/
theorem cancellationBreakdown_restaurant_nan :
    calculateCancellationFee 0 pageRestaurant = { percentage := 0, amount := 0 }
      ∧ cancellationBreakdown 0 pageRestaurant
        = { originalAmount := .nan, fee := 0, refundAmount := .nan }
      ∧ (cancellationBreakdown 0 pageRestaurant).refundAmount ≠ .num 2400 := by
  have hfee : calculateCancellationFee 0 pageRestaurant = { percentage := 0, amount := 0 } := by
    simp [calculateCancellationFee, pageRestaurant, DateField.toDate, ceilDiff, jsGt, ceilDiv,
      msPerHour]
  have hbd : cancellationBreakdown 0 pageRestaurant
      = { originalAmount := .nan, fee := 0, refundAmount := .nan } := by
    simp [cancellationBreakdown, hfee, jsDiv, jsSub]
  refine ⟨hfee, hbd, ?_⟩
  rw [hbd]
  simp

end Frontend

/-- C7: in both controller variants, when the stored booking is already cancelled and the
caller is its owner or an admin, cancelBooking fails with status 400 and the message
Booking is already cancelled, and the store, hence refundAmount, cancellationReason and
cancellationDate of the booking, is left as it was. -/
theorem cancelBooking_already_cancelled (now : Date) (caller : Caller) (id : ObjectId) :
    (∀ (db : Backend.Db) (reason : Option String) (booking : Backend.Booking),
        Backend.findBooking db id = some booking → booking.status = "cancelled" →
        (caller.id = booking.user ∨ caller.role = "admin") →
        Backend.cancelBooking db now caller id reason
          = (Reply.errorResponse "Booking is already cancelled" 400, db))
      ∧ (∀ (db : Nested.Db) (booking : Nested.Booking),
        Nested.findBooking db id = some booking → booking.status = "cancelled" →
        (caller.id = booking.user ∨ caller.role = "admin") →
        Nested.cancelBooking db now caller id
          = (Reply.failure 400 "Booking is already cancelled", db)) := by
  constructor
  · intro db reason booking hfind hstatus hauth
    have hna : Backend.notAuthorized booking caller = false := by
      rcases hauth with h | h <;> simp [Backend.notAuthorized, h]
    simp [Backend.cancelBooking, hfind, hna, hstatus]
  · intro db booking hfind hstatus hauth
    have hna : Nested.notAuthorized booking caller = false := by
      rcases hauth with h | h <;> simp [Nested.notAuthorized, h]
    simp [Nested.cancelBooking, hfind, hna, hstatus]

/-- C7 (witness): the owner cancels `cancelledHotel` a second time, in each variant. -/
theorem cancelBooking_already_cancelled_witness :
    Backend.cancelBooking { Backend.emptyDb with bookings := [Backend.cancelledHotel] }
        (Backend.atDay 8) Backend.owner "b1" none
        = (Reply.errorResponse "Booking is already cancelled" 400,
            { Backend.emptyDb with bookings := [Backend.cancelledHotel] })
      ∧ Nested.cancelBooking { bookings := [Nested.cancelledHotel] }
        (Backend.atDay 8) Backend.owner "b1"
        = (Reply.failure 400 "Booking is already cancelled",
            { bookings := [Nested.cancelledHotel] }) :=
  ⟨(cancelBooking_already_cancelled (Backend.atDay 8) Backend.owner "b1").1 _ none
      Backend.cancelledHotel (by simp [Backend.findBooking, Backend.cancelledHotel,
        Backend.markCancelled, Backend.sampleHotel]) rfl (Or.inl rfl),
    (cancelBooking_already_cancelled (Backend.atDay 8) Backend.owner "b1").2 _
      Nested.cancelledHotel (by simp [Nested.findBooking, Nested.cancelledHotel])
      rfl (Or.inl rfl)⟩

namespace Backend

/-- C8: when the stored booking is completed and the caller is its owner or an admin,
cancelBooking of the main controller fails with status 400 and leaves the store as it was:
the status stays completed and no refundAmount is written. -/
theorem cancelBooking_completed (db : Db) (now : Date) (caller : Caller) (id : ObjectId)
    (reason : Option String) (booking : Booking)
    (hfind : findBooking db id = some booking) (hstatus : booking.status = "completed")
    (hauth : caller.id = booking.user ∨ caller.role = "admin") :
    cancelBooking db now caller id reason
        = (Reply.errorResponse "Cannot cancel a completed booking" 400, db)
      ∧ (cancelBooking db now caller id reason).1.statusCode = some 400
      ∧ findBooking (cancelBooking db now caller id reason).2 id = some booking := by
  have hna : notAuthorized booking caller = false := by
    rcases hauth with h | h <;> simp [notAuthorized, h]
  have hnc : ¬ booking.status = "cancelled" := by rw [hstatus]; decide
  have h : cancelBooking db now caller id reason
      = (Reply.errorResponse "Cannot cancel a completed booking" 400, db) := by
    simp [cancelBooking, hfind, hna, hnc, hstatus]
  rw [h]
  exact ⟨rfl, rfl, hfind⟩

/-- C8 (witness): an admin tries to cancel `completedHotel`. -/
theorem cancelBooking_completed_witness :
    findBooking { emptyDb with bookings := [completedHotel] } "b1" = some completedHotel
      ∧ completedHotel.status = "completed"
      ∧ (admin.id = completedHotel.user ∨ admin.role = "admin")
      ∧ cancelBooking { emptyDb with bookings := [completedHotel] } (atDay 8) admin "b1" none
        = (Reply.errorResponse "Cannot cancel a completed booking" 400,
            { emptyDb with bookings := [completedHotel] }) :=
  have h1 : findBooking { emptyDb with bookings := [completedHotel] } "b1"
      = some completedHotel := by
    simp [findBooking, completedHotel, sampleHotel]
  ⟨h1, rfl, Or.inr rfl,
    (cancelBooking_completed _ (atDay 8) admin "b1" none completedHotel h1 rfl (Or.inr rfl)).1⟩

end Backend

namespace Backend

/-- The ownership test read as a condition on the caller. -/
theorem notAuthorized_iff (b : Booking) (caller : Caller) :
    notAuthorized b caller = true ↔ (caller.id ≠ b.user ∧ caller.role ≠ "admin") := by
  simp only [notAuthorized, Bool.and_eq_true, bne_iff_ne, ne_eq]
  constructor
  · rintro ⟨h1, h2⟩
    exact ⟨fun h => h1 h.symm, h2⟩
  · rintro ⟨h1, h2⟩
    exact ⟨fun h => h1 h.symm, h2⟩

/-- C9: for every stored booking and every caller, each of getBooking, updateBooking and
cancelBooking of the main controller replies with status 401 exactly when the caller's id
differs from the booking's owner and the caller's role is not admin; and whenever one of
them replies 401 the store is left as it was. -/
theorem ownership_guard_401 (db : Db) (now : Date) (caller : Caller) (id : ObjectId)
    (body : BookingBody) (reason : Option String) (booking : Booking)
    (hfind : findBooking db id = some booking) :
    ((getBooking db caller id).1.statusCode = some 401
        ↔ (caller.id ≠ booking.user ∧ caller.role ≠ "admin"))
      ∧ ((updateBooking db caller id body).1.statusCode = some 401
        ↔ (caller.id ≠ booking.user ∧ caller.role ≠ "admin"))
      ∧ ((cancelBooking db now caller id reason).1.statusCode = some 401
        ↔ (caller.id ≠ booking.user ∧ caller.role ≠ "admin"))
      ∧ ((getBooking db caller id).1.statusCode = some 401 → (getBooking db caller id).2 = db)
      ∧ ((updateBooking db caller id body).1.statusCode = some 401
        → (updateBooking db caller id body).2 = db)
      ∧ ((cancelBooking db now caller id reason).1.statusCode = some 401
        → (cancelBooking db now caller id reason).2 = db) := by
  rw [← notAuthorized_iff]
  have hget : (getBooking db caller id).1.statusCode = some 401
      ↔ notAuthorized booking caller = true := by
    unfold getBooking
    simp only [hfind]
    split_ifs with h <;> simp [Reply.statusCode, h]
  have hupd : (updateBooking db caller id body).1.statusCode = some 401
      ↔ notAuthorized booking caller = true := by
    unfold updateBooking
    simp only [hfind]
    split_ifs with h h2
    · simp [Reply.statusCode, h]
    · simp [Reply.statusCode, h]
    · cases findByIdAndUpdate db booking body with
      | error e => simp [Reply.statusCode, h]
      | ok r => simp [Reply.statusCode, h]
  have hcan : (cancelBooking db now caller id reason).1.statusCode = some 401
      ↔ notAuthorized booking caller = true := by
    unfold cancelBooking
    simp only [hfind]
    split_ifs with h h2 h3
    · simp [Reply.statusCode, h]
    · simp [Reply.statusCode, h]
    · simp [Reply.statusCode, h]
    · cases save db (markCancelled booking reason now
          (refundTier booking.totalPrice (daysUntilBooking booking now))) with
      | error e => simp [Reply.statusCode, h]
      | ok r => simp [Reply.statusCode, h]
  refine ⟨hget, hupd, hcan, fun h => ?_, fun h => ?_, fun h => ?_⟩
  · simp [getBooking, hfind, hget.mp h]
  · simp [updateBooking, hfind, hupd.mp h]
  · simp [cancelBooking, hfind, hcan.mp h]

/-- C9 (witness): `stranger`, neither owner nor admin, addresses `sampleHotel`. -/
theorem ownership_guard_401_witness :
    findBooking sampleDb "b1" = some sampleHotel
      ∧ (getBooking sampleDb stranger "b1").1.statusCode = some 401
      ∧ (updateBooking sampleDb stranger "b1" { notes := some "late arrival" }).1.statusCode
        = some 401
      ∧ (cancelBooking sampleDb (atDay 8) stranger "b1" none).1.statusCode = some 401
      ∧ (cancelBooking sampleDb (atDay 8) stranger "b1" none).2 = sampleDb :=
  have h1 : findBooking sampleDb "b1" = some sampleHotel := by
    simp [findBooking, sampleDb, sampleHotel]
  have hs : stranger.id ≠ sampleHotel.user ∧ stranger.role ≠ "admin" := by
    constructor <;> decide
  have h := ownership_guard_401 sampleDb (atDay 8) stranger "b1"
    { notes := some "late arrival" } none sampleHotel h1
  ⟨h1, h.1.mpr hs, h.2.1.mpr hs, h.2.2.1.mpr hs, h.2.2.2.2.2 (h.2.2.1.mpr hs)⟩

/-- C10: when the request names the type hotel, restaurant or attraction and the id it gives
for that type (if any) is the id of no catalog record of that type, createBooking of the
main controller fails with status 404 and the store is left as it was, so no booking is
created. -/
theorem createBooking_item_not_found (db : Db) (newId : ObjectId) (now : Date)
    (caller : Caller) (body : BookingBody) :
    (body.type = some "hotel" → (∀ i, body.hotel = some i → i ∉ db.hotels) →
        createBooking db newId now caller body
          = (Reply.errorResponse ("No hotel found with id " ++ showItemId body.hotel) 404, db))
      ∧ (body.type = some "restaurant" →
        (∀ i, body.restaurant = some i → i ∉ db.restaurants) →
        createBooking db newId now caller body
          = (Reply.errorResponse
              ("No restaurant found with id " ++ showItemId body.restaurant) 404, db))
      ∧ (body.type = some "attraction" →
        (∀ i, body.attraction = some i → i ∉ db.attractions) →
        createBooking db newId now caller body
          = (Reply.errorResponse
              ("No attraction found with id " ++ showItemId body.attraction) 404, db)) := by
  have hitem : ∀ (ids : List ObjectId) (itemId : Option ObjectId),
      (∀ i, itemId = some i → i ∉ ids) → itemExists ids itemId = false := by
    intro ids itemId h
    cases itemId with
    | none => rfl
    | some i => simpa [itemExists] using h i rfl
  refine ⟨fun ht hno => ?_, fun ht hno => ?_, fun ht hno => ?_⟩
  · simp [createBooking, ht, hitem _ _ hno]
  · simp [createBooking, ht, hitem _ _ hno]
  · simp [createBooking, ht, hitem _ _ hno]

/-- C10 (witness): a hotel booking for the id h9, which the catalog does not hold. -/
theorem createBooking_item_not_found_witness :
    unknownHotelBody.type = some "hotel"
      ∧ (∀ i, unknownHotelBody.hotel = some i → i ∉ emptyDb.hotels)
      ∧ createBooking emptyDb "b1" 0 owner unknownHotelBody
        = (Reply.errorResponse "No hotel found with id h9" 404, emptyDb) :=
  have hno : ∀ i, unknownHotelBody.hotel = some i → i ∉ emptyDb.hotels := by
    intro i hi
    have : i = "h9" := by simpa [unknownHotelBody] using hi.symm
    subst this
    simp [emptyDb]
  ⟨rfl, hno, (createBooking_item_not_found emptyDb "b1" 0 owner unknownHotelBody).1 rfl hno⟩

end Backend

namespace Backend

/-- C11: when the stored booking is cancelled or completed and the caller is its owner or an
admin, updateBooking of the main controller fails with status 400 whatever the request body,
and the store, hence every field of the booking, is left as it was. -/
theorem updateBooking_terminal_status (db : Db) (caller : Caller) (id : ObjectId)
    (body : BookingBody) (booking : Booking)
    (hfind : findBooking db id = some booking)
    (hstatus : booking.status = "cancelled" ∨ booking.status = "completed")
    (hauth : caller.id = booking.user ∨ caller.role = "admin") :
    updateBooking db caller id body
        = (Reply.errorResponse "Cannot update a booking that is cancelled or completed" 400, db)
      ∧ (updateBooking db caller id body).1.statusCode = some 400
      ∧ findBooking (updateBooking db caller id body).2 id = some booking := by
  have hna : notAuthorized booking caller = false := by
    rcases hauth with h | h <;> simp [notAuthorized, h]
  have h : updateBooking db caller id body
      = (Reply.errorResponse "Cannot update a booking that is cancelled or completed" 400,
          db) := by
    simp [updateBooking, hfind, hna, hstatus]
  rw [h]
  exact ⟨rfl, rfl, hfind⟩

/-- C11 (witness): the owner sends `completeBody` for the cancelled `cancelledHotel`. -/
theorem updateBooking_terminal_status_witness :
    findBooking { emptyDb with bookings := [cancelledHotel] } "b1" = some cancelledHotel
      ∧ (cancelledHotel.status = "cancelled" ∨ cancelledHotel.status = "completed")
      ∧ (owner.id = cancelledHotel.user ∨ owner.role = "admin")
      ∧ updateBooking { emptyDb with bookings := [cancelledHotel] } owner "b1" completeBody
        = (Reply.errorResponse "Cannot update a booking that is cancelled or completed" 400,
            { emptyDb with bookings := [cancelledHotel] }) :=
  have h1 : findBooking { emptyDb with bookings := [cancelledHotel] } "b1"
      = some cancelledHotel := by
    simp [findBooking, cancelledHotel, markCancelled, sampleHotel]
  ⟨h1, Or.inl rfl, Or.inl rfl,
    (updateBooking_terminal_status _ owner "b1" completeBody cancelledHotel h1 (Or.inl rfl)
      (Or.inl rfl)).1⟩

/-- C12 (counterexample): the owner of the confirmed `sampleHotel` sends an update whose
body names the status completed; updateBooking succeeds and the stored status is completed,
a transition that does not go through cancelBooking. -/
theorem updateBooking_changes_status :
    updateBooking sampleDb owner "b1" completeBody
        = (Reply.json 200 completedHotel, { emptyDb with bookings := [completedHotel] })
      ∧ sampleHotel.status = "confirmed" ∧ completedHotel.status = "completed"
      ∧ findBooking { emptyDb with bookings := [completedHotel] } "b1"
        = some completedHotel := by
  refine ⟨?_, rfl, rfl, ?_⟩
  · simp [updateBooking, sampleDb, emptyDb, owner, completeBody, completedHotel, sampleHotel,
      findBooking, notAuthorized, findByIdAndUpdate, validateBody, applyBody, writeBooking]
  · simp [findBooking, completedHotel, sampleHotel]

/-- C12 (amended): a successful updateBooking leaves the status unchanged when the request
body names no status and stores the status the body names otherwise; a successful
cancelBooking starts from a status that is neither cancelled nor completed and ends in
cancelled. -/
theorem updateBooking_status (db db2 : Db) (caller : Caller) (id : ObjectId)
    (body : BookingBody) (booking b : Booking)
    (hfind : findBooking db id = some booking)
    (h : updateBooking db caller id body = (Reply.json 200 b, db2)) :
    (body.status = none → b.status = booking.status)
      ∧ (∀ st, body.status = some st → b.status = st)
      ∧ findBooking db2 id = some b
      ∧ (∀ (now : Date) (reason : Option String) (c : Booking) (db3 : Db),
          cancelBooking db now caller id reason = (Reply.json 200 c, db3) →
          booking.status ≠ "cancelled" ∧ booking.status ≠ "completed"
            ∧ c.status = "cancelled") := by
  obtain ⟨bk, hbk, -, -, -, -, -, hb, hdb⟩ := updateBooking_json h
  rw [hfind] at hbk
  cases hbk
  have hst : b.status = body.status.getD booking.status := by rw [hb]; rfl
  have hid : b.id = id := by
    rw [hb]
    show booking.id = id
    exact findBooking_id hfind
  refine ⟨fun hn => ?_, fun st hs => ?_, ?_, ?_⟩
  · rw [hst, hn]; rfl
  · rw [hst, hs]; rfl
  · rw [hdb]; exact findBooking_writeBooking hfind hid
  · intro now reason c db3 hc
    obtain ⟨bk, hbk, -, hn1, hn2, -, hcb, -⟩ := cancelBooking_json hc
    rw [hfind] at hbk
    cases hbk
    exact ⟨hn1, hn2, by rw [hcb]; rfl⟩

/-- C12 (witness): the owner adds a note to `sampleHotel`; the status stays confirmed. -/
theorem updateBooking_status_witness :
    findBooking sampleDb "b1" = some sampleHotel ∧ noteBody.status = none
      ∧ ({ sampleHotel with notes := some "late arrival" } : Booking).status
        = sampleHotel.status :=
  have h1 : findBooking sampleDb "b1" = some sampleHotel := by
    simp [findBooking, sampleDb, sampleHotel]
  ⟨h1, rfl,
    (updateBooking_status sampleDb
      { emptyDb with bookings := [{ sampleHotel with notes := some "late arrival" }] }
      owner "b1" noteBody sampleHotel { sampleHotel with notes := some "late arrival" } h1
      (by
        simp [updateBooking, sampleDb, emptyDb, owner, noteBody, sampleHotel,
          findBooking, notAuthorized, findByIdAndUpdate, validateBody, applyBody,
          writeBooking])).1 rfl⟩

end Backend

namespace Backend

/-- C13: when cancelBooking of the main controller succeeds, the document it stores and
returns has status cancelled, the supplied reason as cancellationReason, or
No reason provided when no reason or an empty one is supplied, cancellationDate set to the
current instant and refundAmount set; every other field keeps the value it had. -/
theorem cancelBooking_frame (db db2 : Db) (now : Date) (caller : Caller) (id : ObjectId)
    (reason : Option String) (booking b : Booking)
    (hfind : findBooking db id = some booking)
    (h : cancelBooking db now caller id reason = (Reply.json 200 b, db2)) :
    findBooking db2 id = some b
      ∧ b.status = "cancelled"
      ∧ (∀ r, reason = some r → r ≠ "" → b.cancellationReason = some r)
      ∧ (reason = none ∨ reason = some "" → b.cancellationReason = some "No reason provided")
      ∧ b.cancellationDate = some now
      ∧ (∃ r, b.refundAmount = some r)
      ∧ { b with
          status := booking.status
          cancellationReason := booking.cancellationReason
          cancellationDate := booking.cancellationDate
          refundAmount := booking.refundAmount } = booking
      ∧ b.user = booking.user ∧ b.type = booking.type ∧ b.hotel = booking.hotel
      ∧ b.restaurant = booking.restaurant ∧ b.attraction = booking.attraction
      ∧ b.checkInDate = booking.checkInDate ∧ b.checkOutDate = booking.checkOutDate
      ∧ b.reservationDate = booking.reservationDate ∧ b.visitDate = booking.visitDate
      ∧ b.totalPrice = booking.totalPrice ∧ b.paymentStatus = booking.paymentStatus := by
  obtain ⟨bk, hbk, -, -, -, -, hb, hdb⟩ := cancelBooking_json h
  rw [hfind] at hbk
  cases hbk
  have hid : b.id = id := by
    rw [hb]
    show booking.id = id
    exact findBooking_id hfind
  have hreason : b.cancellationReason = some (reasonOrDefault reason) := by rw [hb]; rfl
  refine ⟨?_, by rw [hb]; rfl, ?_, ?_, by rw [hb]; rfl, ⟨_, by rw [hb]; rfl⟩, by rw [hb]; rfl,
    by rw [hb]; rfl, by rw [hb]; rfl, by rw [hb]; rfl, by rw [hb]; rfl, by rw [hb]; rfl,
    by rw [hb]; rfl, by rw [hb]; rfl, by rw [hb]; rfl, by rw [hb]; rfl, by rw [hb]; rfl,
    by rw [hb]; rfl⟩
  · rw [hdb]; exact findBooking_writeBooking hfind hid
  · intro r hr hne
    rw [hreason, hr]
    simp [reasonOrDefault, hne]
  · intro hr
    rw [hreason]
    rcases hr with hr | hr <;> simp [reasonOrDefault, hr]

/-- C13 (witness): the owner cancels `sampleHotel` at day 8 and gives a reason. -/
theorem cancelBooking_frame_witness :
    findBooking sampleDb "b1" = some sampleHotel
      ∧ (markCancelled sampleHotel (some "flight moved") (atDay 8) 4500).status = "cancelled"
      ∧ (markCancelled sampleHotel (some "flight moved") (atDay 8) 4500).cancellationReason
        = some "flight moved"
      ∧ (markCancelled sampleHotel (some "flight moved") (atDay 8) 4500).totalPrice
        = sampleHotel.totalPrice :=
  have h1 : findBooking sampleDb "b1" = some sampleHotel := by
    simp [findBooking, sampleDb, sampleHotel]
  have h := cancelBooking_frame sampleDb
    { emptyDb with bookings := [markCancelled sampleHotel (some "flight moved") (atDay 8) 4500] }
    (atDay 8) owner "b1" (some "flight moved") sampleHotel
    (markCancelled sampleHotel (some "flight moved") (atDay 8) 4500) h1 (by
      simp [cancelBooking, sampleDb, emptyDb, owner, sampleHotel, atDay,
        findBooking, notAuthorized, refundTier, daysUntilBooking, floorDiv, msPerDay, save,
        validateDoc, preSave, truthyStr, reasonOrDefault, writeBooking, markCancelled]
      norm_num)
  ⟨h1, h.2.1, h.2.2.1 "flight moved" rfl (by decide), h.2.2.2.2.2.2.2.2.2.2.2.2.2.2.2.2.1⟩

end Backend

namespace Backend

/-- The handler deleteBooking on its own: for a caller whose role is not admin it deletes
nothing whatever the id, and replies 401 when the id names a stored booking and 404 when it
names none; the store changes only when the caller is an admin, and an admin removes the
booking the id names. -/
theorem deleteBooking_handler (db : Db) (caller : Caller) (id : ObjectId) :
    (caller.role ≠ "admin" → (deleteBooking db caller id).2 = db)
      ∧ (caller.role ≠ "admin" → ∀ booking, findBooking db id = some booking →
          (deleteBooking db caller id).1
            = Reply.errorResponse "Not authorized to delete bookings" 401)
      ∧ (caller.role ≠ "admin" → findBooking db id = none →
          (deleteBooking db caller id).1.statusCode = some 404)
      ∧ ((deleteBooking db caller id).2 ≠ db → caller.role = "admin")
      ∧ (caller.role = "admin" → ∀ booking, findBooking db id = some booking →
          (deleteBooking db caller id).1 = Reply.json 200 ()
            ∧ findBooking (deleteBooking db caller id).2 id = none) := by
  have hkeep : caller.role ≠ "admin" → (deleteBooking db caller id).2 = db := by
    intro hr
    cases hf : findBooking db id with
    | none => simp [deleteBooking, hf]
    | some b => rw [deleteBooking_found caller hf, if_neg hr]
  refine ⟨hkeep, ?_, ?_, ?_, ?_⟩
  · intro hr booking hf
    rw [deleteBooking_found caller hf, if_neg hr]
  · intro _ hf
    simp [deleteBooking, hf, Reply.statusCode]
  · intro hne
    by_contra hr
    exact hne (hkeep hr)
  · intro hr booking hf
    rw [deleteBooking_found caller hf, if_pos hr]
    exact ⟨rfl, findBooking_removeBooking hf⟩

/-- The route lets an admin through to the handler and stops every other caller. -/
theorem deleteRoute_cases (db : Db) (caller : Caller) (id : ObjectId) :
    (caller.role = "admin" → deleteRoute db caller id = deleteBooking db caller id)
      ∧ (caller.role ≠ "admin" →
          deleteRoute db caller id = (Reply.errorResponse "Unauthorized" 401, db)) := by
  constructor
  · intro hr
    simp [deleteRoute, authorize, hr]
  · intro hr
    simp [deleteRoute, authorize, hr]

/-- C14: on the route DELETE /:id, where `authorize('admin')` precedes deleteBooking, every
caller whose role is not admin, the owner of the booking included, is answered 401 whatever
the id and nothing is deleted; the handler itself, were such a caller to reach it, deletes
nothing either and answers 401 for a stored booking. The store changes only when the
caller's role is admin, and an admin removes the booking the id names. -/
theorem deleteRoute_admin_only (db : Db) (caller : Caller) (id : ObjectId) :
    (caller.role ≠ "admin" →
        (deleteRoute db caller id).1.statusCode = some 401 ∧ (deleteRoute db caller id).2 = db)
      ∧ (caller.role ≠ "admin" → (deleteBooking db caller id).2 = db)
      ∧ (caller.role ≠ "admin" → ∀ booking, findBooking db id = some booking →
          (deleteBooking db caller id).1.statusCode = some 401)
      ∧ ((deleteRoute db caller id).2 ≠ db → caller.role = "admin")
      ∧ ((deleteBooking db caller id).2 ≠ db → caller.role = "admin")
      ∧ (caller.role = "admin" → ∀ booking, findBooking db id = some booking →
          (deleteRoute db caller id).1 = Reply.json 200 ()
            ∧ findBooking (deleteRoute db caller id).2 id = none) := by
  have hh := deleteBooking_handler db caller id
  have hr := deleteRoute_cases db caller id
  refine ⟨fun h => ?_, hh.1, fun h booking hf => ?_, fun hne => ?_, hh.2.2.2.1,
    fun h booking hf => ?_⟩
  · rw [hr.2 h]
    exact ⟨rfl, rfl⟩
  · rw [hh.2.1 h booking hf]
    rfl
  · by_contra h
    rw [hr.2 h] at hne
    exact hne rfl
  · rw [hr.1 h]
    exact hh.2.2.2.2 h booking hf

/-- C14 (witness): the owner of `sampleHotel`, not an admin, sends DELETE for it and for
the id b9, which names no booking. -/
theorem deleteRoute_admin_only_witness :
    owner.role ≠ "admin" ∧ findBooking sampleDb "b1" = some sampleHotel
      ∧ ((deleteRoute sampleDb owner "b1").1.statusCode = some 401
        ∧ (deleteRoute sampleDb owner "b1").2 = sampleDb)
      ∧ ((deleteRoute sampleDb owner "b9").1.statusCode = some 401
        ∧ (deleteRoute sampleDb owner "b9").2 = sampleDb)
      ∧ (deleteBooking sampleDb owner "b1").1.statusCode = some 401 :=
  have h1 : findBooking sampleDb "b1" = some sampleHotel := by
    simp [findBooking, sampleDb, sampleHotel]
  have hr : owner.role ≠ "admin" := by decide
  ⟨hr, h1, (deleteRoute_admin_only sampleDb owner "b1").1 hr,
    (deleteRoute_admin_only sampleDb owner "b9").1 hr,
    (deleteRoute_admin_only sampleDb owner "b1").2.2.1 hr sampleHotel h1⟩

end Backend

/-- C15: for a booking stored under the same id and owner in both variants, the nested
deleteBooking removes it exactly when the caller is the owner or an admin, the main one
exactly when the caller is an admin; the two replies carry the same status for every caller
except an owner who is not an admin, to whom the main variant replies 401 and the nested
one 200. -/
theorem deleteBooking_variants (db : Backend.Db) (ndb : Nested.Db) (caller : Caller)
    (id : ObjectId) (mb : Backend.Booking) (nb : Nested.Booking)
    (hm : Backend.findBooking db id = some mb) (hn : Nested.findBooking ndb id = some nb)
    (howner : mb.user = nb.user) :
    (Nested.findBooking (Nested.deleteBooking ndb caller id).2 id = none
        ↔ (caller.id = mb.user ∨ caller.role = "admin"))
      ∧ (Backend.findBooking (Backend.deleteBooking db caller id).2 id = none
        ↔ caller.role = "admin")
      ∧ (¬ (caller.id = mb.user ∧ caller.role ≠ "admin") →
          (Backend.deleteBooking db caller id).1.statusCode
            = (Nested.deleteBooking ndb caller id).1.statusCode)
      ∧ (caller.id = mb.user ∧ caller.role ≠ "admin" →
          (Backend.deleteBooking db caller id).1.statusCode = some 401
            ∧ (Backend.deleteBooking db caller id).2 = db
            ∧ (Nested.deleteBooking ndb caller id).1.statusCode = some 200
            ∧ Nested.findBooking (Nested.deleteBooking ndb caller id).2 id = none) := by
  rw [howner]
  rw [Backend.deleteBooking_found caller hm, Nested.nested_deleteBooking_found caller hn]
  refine ⟨?_, ?_, ?_, ?_⟩
  · by_cases hc : caller.id = nb.user ∨ caller.role = "admin"
    · rw [if_pos hc]
      exact ⟨fun _ => hc, fun _ => Nested.nested_findBooking_removeBooking hn⟩
    · rw [if_neg hc]
      constructor
      · intro h
        have h2 : Nested.findBooking ndb id = none := h
        rw [hn] at h2
        cases h2
      · intro h
        exact absurd h hc
  · by_cases hr : caller.role = "admin"
    · rw [if_pos hr]
      exact ⟨fun _ => hr, fun _ => Backend.findBooking_removeBooking hm⟩
    · rw [if_neg hr]
      constructor
      · intro h
        have h2 : Backend.findBooking db id = none := h
        rw [hm] at h2
        cases h2
      · intro h
        exact absurd h hr
  · intro hno
    by_cases hr : caller.role = "admin"
    · simp [hr, Reply.statusCode]
    · have hu : ¬ caller.id = nb.user := fun e => hno ⟨e, hr⟩
      simp [hr, hu, Reply.statusCode]
  · rintro ⟨hu, hr⟩
    rw [if_neg hr, if_pos (Or.inl hu)]
    exact ⟨rfl, rfl, rfl, Nested.nested_findBooking_removeBooking hn⟩

/-- C15 (witness): the owner of a booking stored as `sampleHotel` in the main variant and
as `cancelledHotel` in the nested one asks each variant to delete it. -/
theorem deleteBooking_variants_witness :
    Backend.findBooking Backend.sampleDb "b1" = some Backend.sampleHotel
      ∧ Nested.findBooking { bookings := [Nested.cancelledHotel] } "b1"
        = some Nested.cancelledHotel
      ∧ Backend.sampleHotel.user = Nested.cancelledHotel.user
      ∧ (Backend.deleteBooking Backend.sampleDb Backend.owner "b1").1.statusCode = some 401
      ∧ (Backend.deleteBooking Backend.sampleDb Backend.owner "b1").2 = Backend.sampleDb
      ∧ (Nested.deleteBooking { bookings := [Nested.cancelledHotel] }
          Backend.owner "b1").1.statusCode = some 200
      ∧ Nested.findBooking (Nested.deleteBooking { bookings := [Nested.cancelledHotel] }
          Backend.owner "b1").2 "b1" = none :=
  have h1 : Backend.findBooking Backend.sampleDb "b1" = some Backend.sampleHotel := by
    simp [Backend.findBooking, Backend.sampleDb, Backend.sampleHotel]
  have h2 : Nested.findBooking { bookings := [Nested.cancelledHotel] } "b1"
      = some Nested.cancelledHotel := by
    simp [Nested.findBooking, Nested.cancelledHotel]
  ⟨h1, h2, rfl,
    (deleteBooking_variants Backend.sampleDb { bookings := [Nested.cancelledHotel] }
      Backend.owner "b1" Backend.sampleHotel Nested.cancelledHotel h1 h2 rfl).2.2.2
      ⟨rfl, by decide⟩⟩

namespace Backend

/-- C16 (counterexample): the owner of `sampleHotel` sends an update whose body names the
owner u2 and the total price 1; updateBooking succeeds and stores both. -/
theorem updateBooking_overwrites_owner_and_price :
    updateBooking sampleDb owner "b1" takeoverBody
        = (Reply.json 200 takenOverHotel, { emptyDb with bookings := [takenOverHotel] })
      ∧ sampleHotel.user = "u1" ∧ takenOverHotel.user = "u2"
      ∧ sampleHotel.totalPrice = 9000 ∧ takenOverHotel.totalPrice = 1
      ∧ takenOverHotel.user ≠ sampleHotel.user
      ∧ takenOverHotel.totalPrice ≠ sampleHotel.totalPrice := by
  refine ⟨?_, rfl, rfl, rfl, rfl, by decide, ?_⟩
  · simp [updateBooking, sampleDb, emptyDb, owner, takeoverBody, takenOverHotel, sampleHotel,
      findBooking, notAuthorized, findByIdAndUpdate, validateBody, applyBody, writeBooking]
  · norm_num [takenOverHotel, sampleHotel]

/-- C16 (amended): a successful updateBooking leaves each of user, type, the target
references hotel, restaurant and attraction, and totalPrice equal to its value before the
call when the request body does not supply that path; each of these six paths that the body
supplies is overwritten with the supplied value, the stored document being the old one
overwritten by the body. -/
theorem updateBooking_keeps_unsupplied (db db2 : Db) (caller : Caller) (id : ObjectId)
    (body : BookingBody) (booking b : Booking)
    (hfind : findBooking db id = some booking)
    (h : updateBooking db caller id body = (Reply.json 200 b, db2)) :
    (body.user = none → b.user = booking.user)
      ∧ (body.type = none → b.type = booking.type)
      ∧ (body.hotel = none → b.hotel = booking.hotel)
      ∧ (body.restaurant = none → b.restaurant = booking.restaurant)
      ∧ (body.attraction = none → b.attraction = booking.attraction)
      ∧ (body.totalPrice = none → b.totalPrice = booking.totalPrice)
      ∧ (∀ u, body.user = some u → b.user = u)
      ∧ (∀ t, body.type = some t → b.type = t)
      ∧ (∀ p, body.totalPrice = some p → b.totalPrice = p)
      ∧ (∀ x, body.hotel = some x → b.hotel = some x)
      ∧ (∀ x, body.restaurant = some x → b.restaurant = some x)
      ∧ (∀ x, body.attraction = some x → b.attraction = some x)
      ∧ b = applyBody booking body
      ∧ findBooking db2 id = some b := by
  obtain ⟨bk, hbk, -, -, -, -, -, hb, hdb⟩ := updateBooking_json h
  rw [hfind] at hbk
  cases hbk
  have hid : b.id = id := by
    rw [hb]
    show booking.id = id
    exact findBooking_id hfind
  have huser : b.user = body.user.getD booking.user := by rw [hb]; rfl
  have htype : b.type = body.type.getD booking.type := by rw [hb]; rfl
  have hprice : b.totalPrice = body.totalPrice.getD booking.totalPrice := by rw [hb]; rfl
  have hhotel : b.hotel = body.hotel.orElse (fun _ => booking.hotel) := by rw [hb]; rfl
  have hrest : b.restaurant = body.restaurant.orElse (fun _ => booking.restaurant) := by
    rw [hb]; rfl
  have hattr : b.attraction = body.attraction.orElse (fun _ => booking.attraction) := by
    rw [hb]; rfl
  refine ⟨fun hn => ?_, fun hn => ?_, fun hn => ?_, fun hn => ?_, fun hn => ?_, fun hn => ?_,
    fun u hu => ?_, fun t ht => ?_, fun q hq => ?_, fun x hx => ?_, fun x hx => ?_,
    fun x hx => ?_, hb, ?_⟩
  · rw [huser, hn]; rfl
  · rw [htype, hn]; rfl
  · rw [hhotel, hn]; rfl
  · rw [hrest, hn]; rfl
  · rw [hattr, hn]; rfl
  · rw [hprice, hn]; rfl
  · rw [huser, hu]; rfl
  · rw [htype, ht]; rfl
  · rw [hprice, hq]; rfl
  · rw [hhotel, hx]; rfl
  · rw [hrest, hx]; rfl
  · rw [hattr, hx]; rfl
  · rw [hdb]; exact findBooking_writeBooking hfind hid

/-- C16 (witness): the owner adds a note to `sampleHotel`; owner and price stay. -/
theorem updateBooking_keeps_unsupplied_witness :
    findBooking sampleDb "b1" = some sampleHotel ∧ noteBody.user = none
      ∧ noteBody.totalPrice = none
      ∧ ({ sampleHotel with notes := some "late arrival" } : Booking).user = sampleHotel.user
      ∧ ({ sampleHotel with notes := some "late arrival" } : Booking).totalPrice
        = sampleHotel.totalPrice :=
  have h1 : findBooking sampleDb "b1" = some sampleHotel := by
    simp [findBooking, sampleDb, sampleHotel]
  have h := updateBooking_keeps_unsupplied sampleDb
    { emptyDb with bookings := [{ sampleHotel with notes := some "late arrival" }] }
    owner "b1" noteBody sampleHotel { sampleHotel with notes := some "late arrival" } h1
    (by
      simp [updateBooking, sampleDb, emptyDb, owner, noteBody, sampleHotel,
        findBooking, notAuthorized, findByIdAndUpdate, validateBody, applyBody,
        writeBooking])
  ⟨h1, rfl, rfl, h.1 rfl, h.2.2.2.2.2.1 rfl⟩

/-- C17 (counterexample): `owner` sends a hotel request whose body names the status
cancelled, a cancellation reason and a refund of 9000; createBooking succeeds and the
created booking is cancelled and carries that reason and that refund. -/
theorem createBooking_keeps_body_status :
    createBooking emptyDb "b1" 0 owner presetBody
        = (Reply.json 201 presetBooking, { emptyDb with bookings := [presetBooking] })
      ∧ presetBooking.user = owner.id
      ∧ presetBooking.status = "cancelled" ∧ presetBooking.status ≠ "confirmed"
      ∧ presetBooking.cancellationReason = some "preset"
      ∧ presetBooking.refundAmount = some 9000 := by
  refine ⟨?_, rfl, rfl, by decide, rfl, rfl⟩
  simp [createBooking, emptyDb, owner, presetBody, presetBooking, sampleHotel, itemExists,
    create, newDocument, validateDoc, preSave, truthyStr]

/-- C17 (amended): when createBooking of the main controller succeeds, the created booking
has the caller's id as user whatever user the body names; its status is confirmed when the
body names no status and the named status otherwise; its cancellationReason,
cancellationDate and refundAmount are those of the body, so absent when the body supplies
none. -/
theorem createBooking_result (db db2 : Db) (newId : ObjectId) (now : Date) (caller : Caller)
    (body : BookingBody) (b : Booking)
    (h : createBooking db newId now caller body = (Reply.json 201 b, db2)) :
    b.user = caller.id
      ∧ (body.status = none → b.status = "confirmed")
      ∧ (∀ st, body.status = some st → b.status = st)
      ∧ b.cancellationReason = body.cancellationReason
      ∧ b.cancellationDate = body.cancellationDate
      ∧ b.refundAmount = body.refundAmount
      ∧ (body.cancellationReason = none → body.cancellationDate = none →
          body.refundAmount = none →
          b.cancellationReason = none ∧ b.cancellationDate = none ∧ b.refundAmount = none)
      ∧ db2.bookings = db.bookings ++ [b] := by
  obtain ⟨type, totalPrice, -, -, -, hb, -, -, hdb⟩ := createBooking_json h
  have hst : b.status = body.status.getD "confirmed" := by rw [hb]; rfl
  have h1 : b.cancellationReason = body.cancellationReason := by rw [hb]; rfl
  have h2 : b.cancellationDate = body.cancellationDate := by rw [hb]; rfl
  have h3 : b.refundAmount = body.refundAmount := by rw [hb]; rfl
  refine ⟨by rw [hb]; rfl, fun hn => ?_, fun st hs => ?_, h1, h2, h3, fun e1 e2 e3 => ?_, ?_⟩
  · rw [hst, hn]; rfl
  · rw [hst, hs]; rfl
  · exact ⟨h1.trans e1, h2.trans e2, h3.trans e3⟩
  · rw [hdb]

/-- C17 (witness): `owner` sends `negPriceBody`, which names no status and no cancellation
field; the created booking is his and is confirmed. -/
theorem createBooking_result_witness :
    negPriceBooking.user = owner.id ∧ negPriceBody.status = none
      ∧ negPriceBooking.status = "confirmed" ∧ negPriceBooking.refundAmount = none :=
  have h := createBooking_result emptyDb { emptyDb with bookings := [negPriceBooking] }
    "b1" 0 owner negPriceBody negPriceBooking (by
      simp [createBooking, emptyDb, owner, negPriceBody, negPriceBooking, sampleHotel,
        itemExists, create, newDocument, validateDoc, preSave, truthyStr])
  ⟨h.1, rfl, h.2.1 rfl, h.2.2.2.2.2.1⟩

end Backend

namespace Backend

/-- C18 (counterexample): one millisecond after day 8, the check-in of `sampleHotel` at
day 10 is 172799999 ms away; the ceiling of that in days is 2, the day count of
cancelBooking is 1, and the refund it stores is the one of the tier n <= 1, 2250. -/
theorem daysUntilBooking_not_ceiling :
    daysUntilBooking sampleHotel (atDay 8 + 1) = 1
      ∧ ⌈(((atDay 10 - (atDay 8 + 1) : Int) : ℚ)) / 86400000⌉ = 2
      ∧ (cancelBooking sampleDb (atDay 8 + 1) owner "b1" none).1
        = Reply.json 200 (markCancelled sampleHotel none (atDay 8 + 1) 2250) := by
  refine ⟨?_, ?_, ?_⟩
  · simp [daysUntilBooking, sampleHotel, atDay, floorDiv, msPerDay]
  · rw [← ceilDiv_msPerDay]
    decide
  · simp [cancelBooking, sampleDb, emptyDb, owner, sampleHotel, atDay,
      findBooking, notAuthorized, refundTier, daysUntilBooking, floorDiv, msPerDay, save,
      validateDoc, preSave, truthyStr, reasonOrDefault, writeBooking, markCancelled]
    norm_num

/-- C18 (amended): cancelBooking computes the number of days until the event as the floor
of (event date - current time) / 24 hours, the event date being the check-in date of a
hotel booking, the reservation date of a restaurant booking and the visit date of an
attraction booking; the refund it stores is the tier of that floor. -/
theorem daysUntilBooking_floor (b : Booking) (now d : Date)
    (hdate : (b.type = "hotel" ∧ b.checkInDate = some d)
      ∨ (b.type = "restaurant" ∧ b.reservationDate = some d)
      ∨ (b.type = "attraction" ∧ b.visitDate = some d)) :
    daysUntilBooking b now = ⌊((d - now : Int) : ℚ) / 86400000⌋
      ∧ (∀ (db db2 : Db) (caller : Caller) (id : ObjectId) (reason : Option String)
          (c : Booking), findBooking db id = some b →
          cancelBooking db now caller id reason = (Reply.json 200 c, db2) →
          c.refundAmount
            = some (refundTier b.totalPrice ⌊((d - now : Int) : ℚ) / 86400000⌋)) := by
  have hdays : daysUntilBooking b now = ⌊((d - now : Int) : ℚ) / 86400000⌋ := by
    rw [← floorDiv_msPerDay]
    rcases hdate with ⟨ht, hd⟩ | ⟨ht, hd⟩ | ⟨ht, hd⟩
    · simp [daysUntilBooking, ht, hd]
    · simp [daysUntilBooking, ht, hd]
    · simp [daysUntilBooking, ht, hd]
  refine ⟨hdays, ?_⟩
  intro db db2 caller id reason c hfind hc
  obtain ⟨bk, hbk, -, -, -, -, hcb, -⟩ := cancelBooking_json hc
  rw [hfind] at hbk
  cases hbk
  rw [hcb, ← hdays]
  rfl

/-- C18 (witness): `sampleHotel`, whose check-in at day 10 is seen one millisecond after
day 8; the floor of the distance in days is 1. -/
theorem daysUntilBooking_floor_witness :
    sampleHotel.type = "hotel" ∧ sampleHotel.checkInDate = some (atDay 10)
      ∧ daysUntilBooking sampleHotel (atDay 8 + 1)
        = ⌊((atDay 10 - (atDay 8 + 1) : Int) : ℚ) / 86400000⌋ :=
  ⟨rfl, rfl,
    (daysUntilBooking_floor sampleHotel (atDay 8 + 1) (atDay 10) (Or.inl ⟨rfl, rfl⟩)).1⟩

/-- C19: when cancelBooking of the main controller succeeds on a stored booking, whatever
its type, with n its day count daysUntilBooking, the refundAmount stored is totalPrice when
n > 7, 0.75 * totalPrice when 4 <= n <= 7, 0.5 * totalPrice when 2 <= n <= 3 and
0.25 * totalPrice when n <= 1. -/
theorem cancelBooking_refund_tiers (db db2 : Db) (now : Date) (caller : Caller)
    (id : ObjectId) (reason : Option String) (booking b : Booking)
    (hfind : findBooking db id = some booking)
    (h : cancelBooking db now caller id reason = (Reply.json 200 b, db2)) :
    (7 < daysUntilBooking booking now → b.refundAmount = some booking.totalPrice)
      ∧ (4 ≤ daysUntilBooking booking now ∧ daysUntilBooking booking now ≤ 7
        → b.refundAmount = some (0.75 * booking.totalPrice))
      ∧ (2 ≤ daysUntilBooking booking now ∧ daysUntilBooking booking now ≤ 3
        → b.refundAmount = some (0.5 * booking.totalPrice))
      ∧ (daysUntilBooking booking now ≤ 1
        → b.refundAmount = some (0.25 * booking.totalPrice))
      ∧ findBooking db2 id = some b := by
  obtain ⟨bk, hbk, -, -, -, -, hb, hdb⟩ := cancelBooking_json h
  rw [hfind] at hbk
  cases hbk
  have hid : b.id = id := by
    rw [hb]
    show booking.id = id
    exact findBooking_id hfind
  have hr : b.refundAmount
      = some (refundTier booking.totalPrice (daysUntilBooking booking now)) := by
    rw [hb]; rfl
  generalize daysUntilBooking booking now = n at hr
  refine ⟨fun hn => ?_, fun hn => ?_, fun hn => ?_, fun hn => ?_, ?_⟩
  · rw [hr]; simp [refundTier, hn]
  · rw [hr, refundTier, if_neg (by omega), if_pos (by omega)]
    congr 1; ring
  · rw [hr, refundTier, if_neg (by omega), if_neg (by omega), if_pos (by omega)]
    congr 1; ring
  · rw [hr, refundTier, if_neg (by omega), if_neg (by omega), if_neg (by omega)]
    congr 1; ring
  · rw [hdb]; exact findBooking_writeBooking hfind hid

/-- C19 (witness): `sampleHotel` cancelled at day 5, five days before check-in, where the
refund is 0.75 * 9000. -/
theorem cancelBooking_refund_tiers_witness :
    findBooking sampleDb "b1" = some sampleHotel
      ∧ daysUntilBooking sampleHotel (atDay 5) = 5
      ∧ (markCancelled sampleHotel none (atDay 5) 6750).refundAmount
        = some (0.75 * sampleHotel.totalPrice) :=
  have h1 : findBooking sampleDb "b1" = some sampleHotel := by
    simp [findBooking, sampleDb, sampleHotel]
  have hn : daysUntilBooking sampleHotel (atDay 5) = 5 := by
    simp [daysUntilBooking, sampleHotel, atDay, floorDiv, msPerDay]
  ⟨h1, hn,
    (cancelBooking_refund_tiers sampleDb
      { emptyDb with bookings := [markCancelled sampleHotel none (atDay 5) 6750] }
      (atDay 5) owner "b1" none sampleHotel (markCancelled sampleHotel none (atDay 5) 6750)
      h1 (by
        simp [cancelBooking, sampleDb, emptyDb, owner, sampleHotel, atDay,
          findBooking, notAuthorized, refundTier, daysUntilBooking, floorDiv, msPerDay, save,
          validateDoc, preSave, truthyStr, reasonOrDefault, writeBooking, markCancelled]
        norm_num)).2.1 (by rw [hn]; decide)⟩

end Backend

namespace Backend

/-- C20 (counterexample): `owner` asks for a hotel booking with check-in at day 10 and
check-out at day 9; createBooking replies 201 and the booking is stored. -/
theorem createBooking_accepts_reversed_stay :
    reversedStayBody.checkInDate = some (atDay 10)
      ∧ reversedStayBody.checkOutDate = some (atDay 9) ∧ atDay 9 < atDay 10
      ∧ createBooking emptyDb "b1" 0 owner reversedStayBody
        = (Reply.json 201 reversedStayBooking,
            { emptyDb with bookings := [reversedStayBooking] }) := by
  refine ⟨rfl, rfl, by decide, ?_⟩
  simp [createBooking, emptyDb, owner, reversedStayBody, reversedStayBooking, sampleHotel,
    itemExists, create, newDocument, validateDoc, preSave, truthyStr]

/-- C20 (amended): every hotel booking request that lacks the check-in date, the check-out
date or the room type is rejected and no booking is persisted: the reply is the 404 of an
unknown hotel, or else an error raised by Booking.create, as it is whenever the hotel is in
the catalog. The order of the two dates is not examined. -/
theorem createBooking_hotel_missing_field (db : Db) (newId : ObjectId) (now : Date)
    (caller : Caller) (body : BookingBody) (htype : body.type = some "hotel")
    (hmiss : body.checkInDate = none ∨ body.checkOutDate = none
      ∨ truthyStr body.roomType = false) :
    (createBooking db newId now caller body).2 = db
      ∧ ((createBooking db newId now caller body).1
            = Reply.errorResponse ("No hotel found with id " ++ showItemId body.hotel) 404
          ∨ ∃ msg, (createBooking db newId now caller body).1 = Reply.rejected msg)
      ∧ (itemExists db.hotels body.hotel = true
          → ∃ msg, (createBooking db newId now caller body).1 = Reply.rejected msg) := by
  obtain ⟨msg, hmsg⟩ := create_hotel_missing db newId now { body with user := some caller.id }
    htype hmiss
  simp only [htype] at hmsg
  by_cases hitem : itemExists db.hotels body.hotel = true
  · have h : createBooking db newId now caller body = (Reply.rejected msg, db) := by
      simp [createBooking, htype, hitem, hmsg]
    rw [h]
    exact ⟨rfl, Or.inr ⟨msg, rfl⟩, fun _ => ⟨msg, rfl⟩⟩
  · have h : createBooking db newId now caller body
        = (Reply.errorResponse ("No hotel found with id " ++ showItemId body.hotel) 404,
            db) := by
      simp [createBooking, htype, hitem]
    rw [h]
    exact ⟨rfl, Or.inl rfl, fun hc => absurd hc hitem⟩

/-- C20 (witness): `owner` asks for a hotel booking of the known hotel h1 and gives no
check-out date. -/
theorem createBooking_hotel_missing_field_witness :
    noCheckOutBody.type = some "hotel" ∧ noCheckOutBody.checkOutDate = none
      ∧ (createBooking emptyDb "b1" 0 owner noCheckOutBody).2 = emptyDb
      ∧ ∃ msg, (createBooking emptyDb "b1" 0 owner noCheckOutBody).1 = Reply.rejected msg :=
  have h := createBooking_hotel_missing_field emptyDb "b1" 0 owner noCheckOutBody rfl
    (Or.inr (Or.inl rfl))
  ⟨rfl, rfl, h.1, h.2.2 (by simp [itemExists, emptyDb, noCheckOutBody])⟩

end Backend

namespace Backend

/-- C21 (counterexample): `owner` asks for a hotel booking and names a restaurant too; the
document passes the validators and the hook, createBooking stores it, and it has two
target references populated. -/
theorem preSave_accepts_two_targets :
    preSave twoTargetsBooking = none ∧ validateDoc twoTargetsBooking = none
      ∧ createBooking emptyDb "b1" 0 owner twoTargetsBody
        = (Reply.json 201 twoTargetsBooking, { emptyDb with bookings := [twoTargetsBooking] })
      ∧ twoTargetsBooking.type = "hotel"
      ∧ twoTargetsBooking.hotel = some "h1" ∧ twoTargetsBooking.restaurant = some "r1" := by
  refine ⟨?_, ?_, ?_, rfl, rfl, rfl⟩
  · simp [preSave, twoTargetsBooking, sampleHotel, truthyStr]
  · simp [validateDoc, twoTargetsBooking, sampleHotel]
  · simp [createBooking, emptyDb, owner, twoTargetsBody, twoTargetsBooking, sampleHotel,
      itemExists, create, newDocument, validateDoc, preSave, truthyStr]

/-- C21 (amended): every booking the pre-save hook accepts whose type is hotel, restaurant
or attraction has the target reference named by its type populated; the hook does not look
at the other two references. -/
theorem preSave_target_of_type (b : Booking) (h : preSave b = none) :
    (b.type = "hotel" → b.hotel.isSome = true)
      ∧ (b.type = "restaurant" → b.restaurant.isSome = true)
      ∧ (b.type = "attraction" → b.attraction.isSome = true) := by
  refine ⟨fun ht => ?_, fun ht => ?_, fun ht => ?_⟩
  · cases hh : b.hotel with
    | some v => rfl
    | none => simp [preSave, ht, hh] at h
  · have h1 : ¬ ("restaurant" : String) = "hotel" := by decide
    cases hh : b.restaurant with
    | some v => rfl
    | none => simp [preSave, ht, hh, h1] at h
  · have h1 : ¬ ("attraction" : String) = "hotel" := by decide
    have h2 : ¬ ("attraction" : String) = "restaurant" := by decide
    cases hh : b.attraction with
    | some v => rfl
    | none => simp [preSave, ht, hh, h1, h2] at h

/-- C21 (witness): the hook accepts `sampleHotel`, whose hotel reference is populated. -/
theorem preSave_target_of_type_witness :
    preSave sampleHotel = none ∧ sampleHotel.type = "hotel"
      ∧ sampleHotel.hotel.isSome = true :=
  have h : preSave sampleHotel = none := by simp [preSave, sampleHotel, truthyStr]
  ⟨h, rfl, (preSave_target_of_type sampleHotel h).1 rfl⟩

/-- C22: when createBooking succeeds under an id that no stored booking bears, a getBooking
by the same caller on that id in the store createBooking left replies 200 with the created
booking, whose totalPrice, type and target references are those the request supplied. -/
theorem create_then_get (db db2 : Db) (newId : ObjectId) (now : Date) (caller : Caller)
    (body : BookingBody) (b : Booking)
    (hfresh : ∀ x ∈ db.bookings, x.id ≠ newId)
    (h : createBooking db newId now caller body = (Reply.json 201 b, db2)) :
    getBooking db2 caller newId = (Reply.json 200 b, db2)
      ∧ body.totalPrice = some b.totalPrice ∧ body.type = some b.type
      ∧ b.hotel = body.hotel ∧ b.restaurant = body.restaurant
      ∧ b.attraction = body.attraction := by
  obtain ⟨type, totalPrice, ht, hp, -, hb, -, -, hdb⟩ := createBooking_json h
  have hid : b.id = newId := by rw [hb]; rfl
  have huser : b.user = caller.id := by rw [hb]; rfl
  have hfind : findBooking db2 newId = some b := by
    rw [hdb]
    unfold findBooking
    rw [← hid]
    exact find_append_fresh db.bookings b (fun x hx => by rw [hid]; exact hfresh x hx)
  have hna : notAuthorized b caller = false := by simp [notAuthorized, huser]
  refine ⟨?_, ?_, ?_, by rw [hb]; rfl, by rw [hb]; rfl, by rw [hb]; rfl⟩
  · simp [getBooking, hfind, hna]
  · rw [hp, hb]; rfl
  · rw [ht, hb]; rfl

/-- C22 (witness): `owner` creates the booking of `plainHotelBody` in the empty store and
reads it back. -/
theorem create_then_get_witness :
    (∀ x ∈ emptyDb.bookings, x.id ≠ "b1")
      ∧ getBooking { emptyDb with bookings := [plainHotelBooking] } owner "b1"
        = (Reply.json 200 plainHotelBooking, { emptyDb with bookings := [plainHotelBooking] })
      ∧ plainHotelBody.totalPrice = some plainHotelBooking.totalPrice
      ∧ plainHotelBody.type = some plainHotelBooking.type
      ∧ plainHotelBooking.hotel = plainHotelBody.hotel :=
  have hfresh : ∀ x ∈ emptyDb.bookings, x.id ≠ "b1" := by
    intro x hx
    simp [emptyDb] at hx
  have h := create_then_get emptyDb { emptyDb with bookings := [plainHotelBooking] } "b1" 0
    owner plainHotelBody plainHotelBooking hfresh (by
      simp [createBooking, emptyDb, owner, plainHotelBody, plainHotelBooking, sampleHotel,
        itemExists, create, newDocument, validateDoc, preSave, truthyStr])
  ⟨hfresh, h.1, h.2.1, h.2.2.1, h.2.2.2.1⟩

end Backend

namespace Backend

/-- For an id passed in the string form of an ObjectId, lower-case, and favorites whose list
of the category named holds no id twice, addFavorite returns favorites whose list of that
category still holds no id twice and holds the id exactly once; the favorites are unchanged
when the id was already there, and the id is appended otherwise. -/
theorem addFavorite_dedup_canonical (f : Favorites) (type : String) (itemId : ObjectId)
    (ids : List ObjectId) (hget : f.get type = some ids) (hnodup : ids.Nodup)
    (hcanon : castObjectId itemId = some itemId) :
    ∃ f2 ids2, addFavorite f type itemId = .ok f2 ∧ f2.get type = some ids2
      ∧ ids2.Nodup ∧ ids2.count itemId = 1
      ∧ (itemId ∈ ids → f2 = f)
      ∧ (itemId ∉ ids → ids2 = ids ++ [itemId]) := by
  have htype : type = "hotels" ∨ type = "restaurants" ∨ type = "attractions" := by
    by_contra hc
    push_neg at hc
    simp [Favorites.get, hc.1, hc.2.1, hc.2.2] at hget
  have hvalid : (!(["hotels", "restaurants", "attractions"].contains type)) = false := by
    rcases htype with h | h | h <;> simp [h]
  by_cases hmem : itemId ∈ ids
  · refine ⟨f, ids, ?_, hget, hnodup, ?_, fun _ => rfl, fun hc => absurd hmem hc⟩
    · have hc : ids.contains itemId = true := by simpa using hmem
      simp only [addFavorite, hvalid, hget, hc]
      rfl
    · exact List.count_eq_one_of_mem hnodup hmem
  · have hnew := nodup_append_new ids itemId hnodup hmem
    refine ⟨f.push type itemId, ids ++ [itemId], ?_, ?_, hnew.1, hnew.2,
      fun hc => absurd hc hmem, fun _ => rfl⟩
    · have hc : ids.contains itemId = false := by simpa using hmem
      simp only [addFavorite, hvalid, hget, hc, hcanon]
      rfl
    · have hr : ¬ ("restaurants" : String) = "hotels" := by decide
      have ha1 : ¬ ("attractions" : String) = "hotels" := by decide
      have ha2 : ¬ ("attractions" : String) = "restaurants" := by decide
      rcases htype with h | h | h
      · subst h
        simp only [Favorites.get, if_true, Option.some.injEq] at hget
        simp [Favorites.get, Favorites.push, hget]
      · subst h
        simp only [Favorites.get, hr, if_false, if_true, Option.some.injEq] at hget
        simp [Favorites.get, Favorites.push, hget, hr]
      · subst h
        simp only [Favorites.get, ha1, ha2, if_false, if_true, Option.some.injEq] at hget
        simp [Favorites.get, Favorites.push, hget, ha1, ha2]

/-- C23 (failing input): the hotels of `sampleFavorites` hold no id twice. The route hands
addFavorite the id of the first of them spelt with upper-case digits: `includes` compares
that string with the lower-case string form of each stored id and finds none, `push` casts
it to the ObjectId already stored, and the hotels then hold that id twice. -/
theorem addFavorite_duplicates_respelt_id :
    sampleFavorites.hotels.Nodup
      ∧ castObjectId "507F1F77BCF86CD799439011" = some "507f1f77bcf86cd799439011"
      ∧ "507f1f77bcf86cd799439011" ∈ sampleFavorites.hotels
      ∧ addFavorite sampleFavorites "hotels" "507F1F77BCF86CD799439011" = .ok doubledFavorites
      ∧ doubledFavorites.hotels.count "507f1f77bcf86cd799439011" = 2
      ∧ ¬ doubledFavorites.hotels.Nodup := by
  have hcast : castObjectId "507F1F77BCF86CD799439011" = some "507f1f77bcf86cd799439011" := by
    decide
  refine ⟨by decide, hcast, by decide, ?_, by decide, by decide⟩
  have hc : sampleFavorites.hotels.contains "507F1F77BCF86CD799439011" = false := by decide
  simp only [addFavorite, Favorites.get, hcast]
  simp [hc, Favorites.push, sampleFavorites, doubledFavorites]

/-- C26: for a caller who is neither owner nor admin and two stored bookings under the same
id with the same owner, whatever their other fields and whatever else the two stores hold,
getBooking, updateBooking and cancelBooking of the main controller give the same reply in
both stores, its status is 401, and neither store is changed. -/
theorem unauthorized_noninterference (dbA dbB : Db) (now : Date) (caller : Caller)
    (id : ObjectId) (body : BookingBody) (reason : Option String) (bA bB : Booking)
    (hA : findBooking dbA id = some bA) (hB : findBooking dbB id = some bB)
    (howner : bA.user = bB.user)
    (hcaller : caller.id ≠ bA.user ∧ caller.role ≠ "admin") :
    ((getBooking dbA caller id).1 = (getBooking dbB caller id).1
        ∧ (getBooking dbA caller id).1.statusCode = some 401
        ∧ (getBooking dbA caller id).2 = dbA ∧ (getBooking dbB caller id).2 = dbB)
      ∧ ((updateBooking dbA caller id body).1 = (updateBooking dbB caller id body).1
        ∧ (updateBooking dbA caller id body).1.statusCode = some 401
        ∧ (updateBooking dbA caller id body).2 = dbA
        ∧ (updateBooking dbB caller id body).2 = dbB)
      ∧ ((cancelBooking dbA now caller id reason).1 = (cancelBooking dbB now caller id reason).1
        ∧ (cancelBooking dbA now caller id reason).1.statusCode = some 401
        ∧ (cancelBooking dbA now caller id reason).2 = dbA
        ∧ (cancelBooking dbB now caller id reason).2 = dbB) := by
  have hnaA : notAuthorized bA caller = true := (notAuthorized_iff bA caller).mpr hcaller
  have hnaB : notAuthorized bB caller = true :=
    (notAuthorized_iff bB caller).mpr (by rw [← howner]; exact hcaller)
  refine ⟨?_, ?_, ?_⟩
  · simp [getBooking, hA, hB, hnaA, hnaB, Reply.statusCode]
  · simp [updateBooking, hA, hB, hnaA, hnaB, Reply.statusCode]
  · simp [cancelBooking, hA, hB, hnaA, hnaB, Reply.statusCode]

/-- C26 (witness): `stranger` addresses the id b1 in a store that holds the confirmed
`sampleHotel` and in one that holds the cancelled `cancelledHotel`. -/
theorem unauthorized_noninterference_witness :
    findBooking sampleDb "b1" = some sampleHotel
      ∧ findBooking { emptyDb with bookings := [cancelledHotel] } "b1" = some cancelledHotel
      ∧ sampleHotel.user = cancelledHotel.user
      ∧ (stranger.id ≠ sampleHotel.user ∧ stranger.role ≠ "admin")
      ∧ (cancelBooking sampleDb (atDay 8) stranger "b1" none).1
        = (cancelBooking { emptyDb with bookings := [cancelledHotel] } (atDay 8) stranger "b1"
            none).1
      ∧ (cancelBooking sampleDb (atDay 8) stranger "b1" none).1.statusCode = some 401 :=
  have h1 : findBooking sampleDb "b1" = some sampleHotel := by
    simp [findBooking, sampleDb, sampleHotel]
  have h2 : findBooking { emptyDb with bookings := [cancelledHotel] } "b1"
      = some cancelledHotel := by
    simp [findBooking, cancelledHotel, markCancelled, sampleHotel]
  have hs : stranger.id ≠ sampleHotel.user ∧ stranger.role ≠ "admin" := by
    constructor <;> decide
  have h := unauthorized_noninterference sampleDb { emptyDb with bookings := [cancelledHotel] }
    (atDay 8) stranger "b1" noteBody none sampleHotel cancelledHotel h1 h2 rfl hs
  ⟨h1, h2, rfl, hs, h.2.2.1, h.2.2.2.1⟩

end Backend

/-- C27: for a total price that is not negative, the refund tier of cancelBooking does not
decrease with the day count, and neither does the refundAmount it stores for one booking
cancelled at two instants; for each of the three booking types the fee percentage of
calculateCancellationFee does not increase when the event date moves away. -/
theorem refund_monotone_in_notice :
    (∀ (p : ℚ) (n1 n2 : Int), 0 ≤ p → n1 ≤ n2 →
        Backend.refundTier p n1 ≤ Backend.refundTier p n2)
      ∧ (∀ (db d1 d2 : Backend.Db) (id : ObjectId) (booking c1 c2 : Backend.Booking)
          (now1 now2 : Date) (caller : Caller) (reason : Option String),
          Backend.findBooking db id = some booking → 0 ≤ booking.totalPrice →
          Backend.daysUntilBooking booking now1 ≤ Backend.daysUntilBooking booking now2 →
          Backend.cancelBooking db now1 caller id reason = (Reply.json 200 c1, d1) →
          Backend.cancelBooking db now2 caller id reason = (Reply.json 200 c2, d2) →
          ∃ r1 r2, c1.refundAmount = some r1 ∧ c2.refundAmount = some r2 ∧ r1 ≤ r2)
      ∧ (∀ (today t1 t2 : Date) (b1 b2 : Frontend.Booking), t1 ≤ t2 →
          b1.type = "hotel" → b2.type = "hotel" →
          b1.checkIn = .valid t1 → b2.checkIn = .valid t2 →
          (Frontend.calculateCancellationFee today b2).percentage
            ≤ (Frontend.calculateCancellationFee today b1).percentage)
      ∧ (∀ (today t1 t2 : Date) (b1 b2 : Frontend.Booking), t1 ≤ t2 →
          b1.type = "restaurant" → b2.type = "restaurant" →
          b1.date = .valid t1 → b2.date = .valid t2 →
          (Frontend.calculateCancellationFee today b2).percentage
            ≤ (Frontend.calculateCancellationFee today b1).percentage)
      ∧ (∀ (today t1 t2 : Date) (b1 b2 : Frontend.Booking), t1 ≤ t2 →
          b1.type = "attraction" → b2.type = "attraction" →
          b1.date = .valid t1 → b2.date = .valid t2 →
          (Frontend.calculateCancellationFee today b2).percentage
            ≤ (Frontend.calculateCancellationFee today b1).percentage) := by
  refine ⟨fun p n1 n2 hp hn => refundTier_mono p n1 n2 hp hn, ?_, ?_, ?_, ?_⟩
  · intro db d1 d2 id booking c1 c2 now1 now2 caller reason hfind hp hn h1 h2
    obtain ⟨bk1, hbk1, -, -, -, -, hc1, -⟩ := Backend.cancelBooking_json h1
    obtain ⟨bk2, hbk2, -, -, -, -, hc2, -⟩ := Backend.cancelBooking_json h2
    rw [hfind] at hbk1 hbk2
    cases hbk1
    cases hbk2
    exact ⟨_, _, by rw [hc1]; rfl, by rw [hc2]; rfl,
      refundTier_mono booking.totalPrice _ _ hp hn⟩
  · intro today t1 t2 b1 b2 ht h1 h2 hd1 hd2
    rw [Frontend.hotel_percentage today t1 b1 h1 hd1,
      Frontend.hotel_percentage today t2 b2 h2 hd2]
    have hmono := ceilDiv_mono_day (t1 - today) (t2 - today) (Int.sub_le_sub_right ht today)
    generalize ceilDiv (t1 - today) msPerDay = e1 at hmono
    generalize ceilDiv (t2 - today) msPerDay = e2 at hmono
    split_ifs <;> first | (exfalso; omega) | norm_num
  · intro today t1 t2 b1 b2 ht h1 h2 hd1 hd2
    rw [Frontend.restaurant_percentage today b1 h1,
      Frontend.restaurant_percentage today b2 h2]
    simp only [hd1, hd2, Frontend.DateField.toDate, Frontend.ceilDiff, Frontend.jsGt,
      decide_eq_true_eq]
    have hmono := ceilDiv_mono_hour (t1 - today) (t2 - today) (Int.sub_le_sub_right ht today)
    generalize ceilDiv (t1 - today) msPerHour = e1 at hmono
    generalize ceilDiv (t2 - today) msPerHour = e2 at hmono
    split_ifs <;> first | (exfalso; omega) | norm_num
  · intro today t1 t2 b1 b2 ht h1 h2 hd1 hd2
    rw [Frontend.attraction_fee today t1 b1 h1 hd1, Frontend.attraction_fee today t2 b2 h2 hd2]
    have hmono := ceilDiv_mono_day (t1 - today) (t2 - today) (Int.sub_le_sub_right ht today)
    generalize ceilDiv (t1 - today) msPerDay = e1 at hmono
    generalize ceilDiv (t2 - today) msPerDay = e2 at hmono
    split_ifs <;> first | (exfalso; omega) | norm_num

/-- C27 (witness): 9000 cancelled at day count 2 and at day count 5, and `pageHotel` seen
from instant 0 against the same booking with its check-in eight days later. -/
theorem refund_monotone_in_notice_witness :
    Backend.refundTier 9000 2 ≤ Backend.refundTier 9000 5
      ∧ (Frontend.calculateCancellationFee 0
            { Frontend.pageHotel with checkIn := .valid 864000000 }).percentage
          ≤ (Frontend.calculateCancellationFee 0 Frontend.pageHotel).percentage :=
  ⟨refund_monotone_in_notice.1 9000 2 5 (by norm_num) (by decide),
    refund_monotone_in_notice.2.2.1 0 172800000 864000000 Frontend.pageHotel
      { Frontend.pageHotel with checkIn := .valid 864000000 } (by decide) rfl rfl rfl rfl⟩

namespace Frontend

/-- C24: handleSubmit of HotelBooking.jsx computes totalPrice = basePrice * rooms * nights * m
with nights = ceiling((checkOut - checkIn) / 1 day), basePrice the listed price or 3000, and
m = 1 for the room type standard, 1.5 for deluxe, 2.5 for suite and 1 for any other value;
the result is not negative when check-out is not before check-in. -/
theorem handleSubmit_totalPrice (hotel : HotelListing) (formData : HotelForm) :
    (formData.roomType = "standard" →
        handleSubmitTotalPrice hotel formData
          = ((hotel.priceMatch.getD 3000 : Nat) : ℚ) * formData.rooms
            * ⌈((formData.checkOut - formData.checkIn : Int) : ℚ) / 86400000⌉ * 1)
      ∧ (formData.roomType = "deluxe" →
        handleSubmitTotalPrice hotel formData
          = ((hotel.priceMatch.getD 3000 : Nat) : ℚ) * formData.rooms
            * ⌈((formData.checkOut - formData.checkIn : Int) : ℚ) / 86400000⌉ * 1.5)
      ∧ (formData.roomType = "suite" →
        handleSubmitTotalPrice hotel formData
          = ((hotel.priceMatch.getD 3000 : Nat) : ℚ) * formData.rooms
            * ⌈((formData.checkOut - formData.checkIn : Int) : ℚ) / 86400000⌉ * 2.5)
      ∧ (formData.roomType ≠ "standard" → formData.roomType ≠ "deluxe" →
        formData.roomType ≠ "suite" →
        handleSubmitTotalPrice hotel formData
          = ((hotel.priceMatch.getD 3000 : Nat) : ℚ) * formData.rooms
            * ⌈((formData.checkOut - formData.checkIn : Int) : ℚ) / 86400000⌉ * 1)
      ∧ (formData.checkIn ≤ formData.checkOut → 0 ≤ handleSubmitTotalPrice hotel formData) := by
  have hbase : (match hotel.priceMatch with
      | some n => (n : ℚ)
      | none => 3000) = ((hotel.priceMatch.getD 3000 : Nat) : ℚ) := by
    cases hotel.priceMatch <;> simp
  have hd : ¬ ("deluxe" : String) = "standard" := by decide
  have hs1 : ¬ ("suite" : String) = "standard" := by decide
  have hs2 : ¬ ("suite" : String) = "deluxe" := by decide
  refine ⟨fun h => ?_, fun h => ?_, fun h => ?_, fun h1 h2 h3 => ?_, fun h => ?_⟩
  · simp only [handleSubmitTotalPrice, hbase, ceilDiv_msPerDay, h, if_true]
  · simp only [handleSubmitTotalPrice, hbase, ceilDiv_msPerDay, h, hd, if_true, if_false]
  · simp only [handleSubmitTotalPrice, hbase, ceilDiv_msPerDay, h, hs1, hs2, if_true, if_false]
  · simp only [handleSubmitTotalPrice, hbase, ceilDiv_msPerDay, h1, h2, h3, if_false]
  · have key : ∀ x : Int, 0 ≤ x → 0 ≤ ceilDiv x msPerDay := by
      intro x hx
      simp only [ceilDiv, msPerDay]
      omega
    have hn : 0 ≤ ceilDiv (formData.checkOut - formData.checkIn) msPerDay :=
      key _ (Int.sub_nonneg_of_le h)
    have hnq : (0 : ℚ) ≤ ((ceilDiv (formData.checkOut - formData.checkIn) msPerDay : Int) : ℚ) :=
      by exact_mod_cast hn
    simp only [handleSubmitTotalPrice, hbase]
    apply mul_nonneg
    · apply mul_nonneg
      · apply mul_nonneg
        · exact Nat.cast_nonneg _
        · exact Nat.cast_nonneg _
      · exact hnq
    · split_ifs <;> norm_num

/-- C24 (witness): two deluxe rooms for three nights in a hotel listed from 3000. -/
theorem handleSubmit_totalPrice_witness :
    deluxeForm.roomType = "deluxe" ∧ deluxeForm.checkIn ≤ deluxeForm.checkOut
      ∧ handleSubmitTotalPrice listedHotel deluxeForm = 27000
      ∧ 0 ≤ handleSubmitTotalPrice listedHotel deluxeForm :=
  have hle : deluxeForm.checkIn ≤ deluxeForm.checkOut := by decide
  ⟨rfl, hle, by
    rw [(handleSubmit_totalPrice listedHotel deluxeForm).2.1 rfl, ← ceilDiv_msPerDay]
    have hc : ceilDiv (deluxeForm.checkOut - deluxeForm.checkIn) msPerDay = 3 := by decide
    rw [hc]
    norm_num [listedHotel, deluxeForm],
    (handleSubmit_totalPrice listedHotel deluxeForm).2.2.2.2 hle⟩

/-- C25 (failing inputs): five days before check-in calculateCancellationFee charges a hotel
booking 50% where the modal lists 25%; 48 hours before the reservation it charges a
restaurant booking 0% where the modal lists 20%; five days before the visit it charges an
attraction booking 20% where the modal lists 50%. -/
theorem fee_differs_from_displayed_policy :
    (calculateCancellationFee 0 pageHotelFiveDays).percentage = 50
      ∧ displayedPolicy "hotel" (432000000 - 0) = 25
      ∧ (calculateCancellationFee 0 pageRestaurant).percentage = 0
      ∧ displayedPolicy "restaurant" (172800000 - 0) = 20
      ∧ (calculateCancellationFee 0 pageAttraction).percentage = 20
      ∧ displayedPolicy "attraction" (432000000 - 0) = 50 := by
  refine ⟨?_, ?_, ?_, ?_, ?_, ?_⟩
  · simp [calculateCancellationFee, pageHotelFiveDays, DateField.toDate, ceilDiff, jsLe,
      ceilDiv, msPerDay]
  · simp [displayedPolicy, msPerDay, msPerHour]
  · simp [calculateCancellationFee, pageRestaurant, DateField.toDate, ceilDiff, jsGt, ceilDiv,
      msPerHour]
  · simp [displayedPolicy, msPerHour]
  · simp [calculateCancellationFee, pageAttraction, DateField.toDate, ceilDiff, jsLe,
      ceilDiv, msPerDay]
  · simp [displayedPolicy, msPerDay, msPerHour]

end Frontend

namespace Frontend

/-- C29 (failing input): for `pageChildTickets`, an attraction booking without totalPrice
for two child tickets, getFormattedPrice displays 1000 (two tickets at 500) while
calculateCancellationFee computes the fee on 500 (two child tickets at 250). -/
theorem displayed_price_differs_from_fee_basis :
    pageChildTickets.totalPrice = none
      ∧ getFormattedPrice pageChildTickets = 1000
      ∧ rawPrice pageChildTickets = 500
      ∧ jsRound (rawPrice pageChildTickets) = 500
      ∧ getFormattedPrice pageChildTickets ≠ jsRound (rawPrice pageChildTickets) := by
  have h2 : jsParseInt 2 = 2 := by
    have h := jsParseInt_natCast 2
    simpa using h
  have h0 : jsParseInt 0 = 0 := by
    have h := jsParseInt_natCast 0
    simpa using h
  have hr1000 : jsRound 1000 = 1000 := by
    have h := jsRound_intCast 1000
    simpa using h
  have hr500 : jsRound 500 = 500 := by
    have h := jsRound_intCast 500
    simpa using h
  have hfmt : getFormattedPrice pageChildTickets = 1000 := by
    simp [getFormattedPrice, pageChildTickets, numOr, h2, h0]
    norm_num [hr1000]
  have hraw : rawPrice pageChildTickets = 500 := by
    simp [rawPrice, pageChildTickets, numOr, ticketMultiplier]
    norm_num
  refine ⟨rfl, hfmt, hraw, by rw [hraw, hr500], ?_⟩
  rw [hfmt, hraw, hr500]
  norm_num

/-- C30 (failing input): `pageUnreadableDate`, whose date string does not read as a date,
is listed under neither tab: both comparisons on its Invalid Date are false and nothing is
thrown, so the fallback of the `catch` block is not reached. -/
theorem unreadable_date_in_neither_tab :
    inTab 19800000 0 "upcoming" pageUnreadableDate = false
      ∧ inTab 19800000 0 "past" pageUnreadableDate = false := by
  constructor <;> simp [inTab, pageUnreadableDate, DateField.orElse, DateField.toDate]

end Frontend

namespace Nested

/-- C28 (counterexample): the owner cancels the pending `pendingHotel` at instant 432000000:
the nested cancelBooking succeeds and, besides status and paymentStatus, updatedAt changes
from 0 to 432000000. An admin cancels the completed `completedNoRoomType`, which lacks the
room type the schema requires of a hotel booking: the save is refused, the handler forwards
the error and the booking stays completed. -/
theorem nested_cancelBooking_stamps_and_validates :
    cancelBooking { bookings := [pendingHotel] } 432000000 Backend.owner "b1"
        = (Reply.json 200 pendingHotelCancelled, { bookings := [pendingHotelCancelled] })
      ∧ pendingHotel.updatedAt = 0 ∧ pendingHotelCancelled.updatedAt = 432000000
      ∧ completedNoRoomType.status = "completed"
      ∧ cancelBooking { bookings := [completedNoRoomType] } 432000000 Backend.admin "b1"
        = (Reply.rejected "Validation failed: roomType", { bookings := [completedNoRoomType] })
          := by
  refine ⟨?_, rfl, rfl, rfl, ?_⟩
  · simp [cancelBooking, findBooking, pendingHotel, pendingHotelCancelled, cancelledHotel,
      notAuthorized, Backend.owner, save, validateDoc, present]
  · simp [cancelBooking, findBooking, completedNoRoomType, cancelledHotel, notAuthorized,
      Backend.admin, save, validateDoc, present]

/-- C28 (amended): in the nested variant, for every stored booking whose status is not
cancelled, completed and pending ones included, and every caller who is its owner or an
admin, cancelBooking succeeds whenever the document with the two new values passes the
validators of the schema; it then stores and returns the booking with status cancelled,
paymentStatus refunded and updatedAt set to the current instant, every other field, the
total price included, being as before. -/
theorem nested_cancelBooking_result (db : Db) (now : Date) (caller : Caller) (id : ObjectId)
    (booking : Booking) (hfind : findBooking db id = some booking)
    (hstatus : booking.status ≠ "cancelled")
    (hauth : caller.id = booking.user ∨ caller.role = "admin")
    (hvalid : validateDoc { booking with status := "cancelled", paymentStatus := "refunded" }
      = none) :
    (cancelBooking db now caller id).1
        = Reply.json 200
            { booking with status := "cancelled", paymentStatus := "refunded", updatedAt := now }
      ∧ findBooking (cancelBooking db now caller id).2 id
        = some { booking with
                  status := "cancelled", paymentStatus := "refunded", updatedAt := now } := by
  have hna : notAuthorized booking caller = false := by
    rcases hauth with h | h <;> simp [notAuthorized, h]
  have hid : booking.id = id := nested_findBooking_id hfind
  subst hid
  have hcancel : cancelBooking db now caller booking.id
      = (Reply.json 200
          { booking with status := "cancelled", paymentStatus := "refunded", updatedAt := now },
        { db with bookings := db.bookings.map (fun x => if x.id == booking.id then
            { booking with status := "cancelled", paymentStatus := "refunded", updatedAt := now }
            else x) }) := by
    simp only [cancelBooking, hfind, hna, hstatus, save, hvalid]
    simp
  rw [hcancel]
  refine ⟨rfl, ?_⟩
  exact nested_find_map_replace db.bookings booking.id booking _ hfind rfl

/-- C28 (witness): the owner cancels `pendingHotel` at instant 432000000. -/
theorem nested_cancelBooking_result_witness :
    findBooking { bookings := [pendingHotel] } "b1" = some pendingHotel
      ∧ pendingHotel.status ≠ "cancelled"
      ∧ (Backend.owner.id = pendingHotel.user ∨ Backend.owner.role = "admin")
      ∧ (cancelBooking { bookings := [pendingHotel] } 432000000 Backend.owner "b1").1
        = Reply.json 200 pendingHotelCancelled :=
  have h1 : findBooking { bookings := [pendingHotel] } "b1" = some pendingHotel := by
    simp [findBooking, pendingHotel, cancelledHotel]
  have h2 : pendingHotel.status ≠ "cancelled" := by decide
  ⟨h1, h2, Or.inl rfl,
    (nested_cancelBooking_result { bookings := [pendingHotel] } 432000000 Backend.owner "b1"
      pendingHotel h1 h2 (Or.inl rfl) (by
        simp [validateDoc, pendingHotel, cancelledHotel, present])).1⟩

end Nested

end AdventureAwaits
